/-
  Verification of the chi-squared upper-tail evaluator from
  `auxiliary/verify_threshold.py`.

  The Python function `chi2_cdf_upper_tail(x, df)` computes P(chi-squared > x)
  for `df` degrees of freedom via the series expansion of the regularized
  lower incomplete gamma function, in log space.

  Embedding choices:
  * Inputs `x`, `df` are rationals (every Python float is a rational); the
    arithmetic of the series loop is exact rational arithmetic, mirroring the
    source expressions `term *= t / (k + n)`, `sum += term`.
  * The transcendental calls `math.log`, `math.lgamma`, `math.exp` are
    idealized as the corresponding real functions `Real.log`,
    `log |Real.Gamma|`, `Real.exp`.
  * Fallible operations are modelled with `Option`: `math.log` raises on a
    non-positive argument, `math.lgamma` raises at the poles (non-positive
    integers), and float division raises on a zero divisor; each is `none`
    in exactly those cases.
  * The `while` loop runs with fuel 2000: since `n` starts at 1 and the loop
    guard requires `n < 2000`, the source loop performs at most 1999
    iterations, so fuel 2000 is never exhausted before the guard fails.
-/
import Mathlib

open scoped BigOperators

/-- The absolute convergence threshold `1e-15` from the source loop guard
`abs(term) > 1e-15`. -/
def tol : ℚ := 1 / 10 ^ 15

/-- Model of `math.log`, which raises `ValueError` on non-positive arguments:
`none` there, otherwise the real logarithm. -/
noncomputable def plog (t : ℚ) : Option ℝ :=
  if 0 < t then some (Real.log (t : ℝ)) else none

/-- Model of `math.lgamma`, which raises `ValueError` exactly at the poles of Γ
(the non-positive integers): `none` there, otherwise `log |Γ|`. -/
noncomputable def plgamma (y : ℚ) : Option ℝ :=
  if y ≤ 0 ∧ y.den = 1 then none else some (Real.log |Real.Gamma (y : ℝ)|)

/-- The series loop of `chi2_cdf_upper_tail`:

    while abs(term) > 1e-15 and n < 2000:
        term *= t / (k + n)
        sum_val += term
        n += 1

State is `(n, term, sum_val)`.  Division guards against a zero divisor
`k + n` (a float `ZeroDivisionError` is `none`).  `fuel` bounds the number of
remaining unfoldings; the top-level call passes 2000, which is never
exhausted (see `seriesLoop_run`). -/
def seriesLoop (k t : ℚ) : ℕ → ℕ → ℚ → ℚ → Option (ℕ × ℚ × ℚ)
  | 0, n, term, s => some (n, term, s)
  | fuel + 1, n, term, s =>
    if tol < |term| ∧ n < 2000 then
      if k + (n : ℚ) = 0 then none
      else
        let term2 := term * (t / (k + (n : ℚ)))
        seriesLoop k t fuel (n + 1) term2 (s + term2)
    else some (n, term, s)

/-- The embedding of `chi2_cdf_upper_tail(x, df)` from
`auxiliary/verify_threshold.py`:

    k = df / 2.0
    t = x / 2.0
    if x <= 0:
        return 1.0
    log_term = k * math.log(t) - t - math.lgamma(k + 1)
    sum_val = 1.0; term = 1.0; n = 1
    while abs(term) > 1e-15 and n < 2000: ...
    cdf = math.exp(log_term) * sum_val
    return 1.0 - cdf
-/
noncomputable def chi2_cdf_upper_tail (x df : ℚ) : Option ℝ :=
  let k := df / 2
  let t := x / 2
  if x ≤ 0 then some 1
  else do
    let logt ← plog t
    let lg ← plgamma (k + 1)
    let log_term : ℝ := (k : ℝ) * logt - (t : ℝ) - lg
    let r ← seriesLoop k t 2000 1 1 1
    some (1 - Real.exp log_term * ((r.2.2 : ℚ) : ℝ))

/-- Closed form of the loop's `term` variable at state `n = m + 1`:
`∏_{i=0}^{m-1} t / (k + (i+1))`. -/
def mterm (k t : ℚ) (m : ℕ) : ℚ :=
  ∏ i in Finset.range m, t / (k + ((i : ℚ) + 1))

/-- Closed form of the loop's `sum_val` variable at state `n = m + 1`:
the partial series sum `∑_{j=0}^{m} mterm j`. -/
def msum (k t : ℚ) (m : ℕ) : ℚ :=
  ∑ j in Finset.range (m + 1), mterm k t j

/-- The integrand of the Gamma function, in the shape used by Mathlib:
`exp (-u) * u ^ (s - 1)`. -/
noncomputable def gi (s : ℝ) : ℝ → ℝ :=
  fun u => Real.exp (-u) * u ^ (s - 1)

/-- The `n`-th term of the series for the regularized lower incomplete
gamma function: `u ^ s · e^(-u) / Γ(s + 1)` at `s = k + n`. -/
noncomputable def gterm (s u : ℝ) : ℝ :=
  u ^ s * Real.exp (-u) / Real.Gamma (s + 1)

/-- The real-analytic value of the truncated series computed by the code:
`∑_{n=0}^{N} t^(k+n) e^(-t) / Γ(k+n+1)`. -/
noncomputable def Fsum (k : ℝ) (N : ℕ) (u : ℝ) : ℝ :=
  ∑ n in Finset.range (N + 1), gterm (k + n) u

/-- The product `(k+1)(k+2)⋯(k+j)` relating `Γ(k+j+1)` to `Γ(k+1)`. -/
noncomputable def prodShift (k : ℝ) (j : ℕ) : ℝ :=
  ∏ i in Finset.range j, (k + ((i : ℝ) + 1))

/-- The derivative of `Fsum k N` (for positive arguments): the telescoped
value `gi k u / Γ k - gi (k+N+1) u / Γ (k+N+1)`. -/
noncomputable def Dfun (k : ℝ) (N : ℕ) (u : ℝ) : ℝ :=
  gi k u / Real.Gamma k - gi (k + ((N : ℝ) + 1)) u / Real.Gamma (k + ((N : ℝ) + 1))

theorem mterm_zero (k t : ℚ) : mterm k t 0 = 1 := by
  simp [mterm]

theorem mterm_succ (k t : ℚ) (m : ℕ) :
    mterm k t (m + 1) = mterm k t m * (t / (k + ((m : ℚ) + 1))) := by
  simp only [mterm, Finset.prod_range_succ]

theorem msum_zero (k t : ℚ) : msum k t 0 = 1 := by
  simp [msum, mterm]

theorem msum_succ (k t : ℚ) (m : ℕ) :
    msum k t (m + 1) = msum k t m + mterm k t (m + 1) := by
  simp [msum, Finset.sum_range_succ]

/-- One iteration of the loop, with the updated state given explicitly. -/
theorem seriesLoop_step (k t : ℚ) (fuel n : ℕ) (term s term2 s2 : ℚ)
    (h1 : tol < |term|) (h2 : n < 2000) (h3 : k + (n : ℚ) ≠ 0)
    (h4 : term * (t / (k + (n : ℚ))) = term2) (h5 : s + term2 = s2) :
    seriesLoop k t (fuel + 1) n term s = seriesLoop k t fuel (n + 1) term2 s2 := by
  show (if tol < |term| ∧ n < 2000 then
      if k + (n : ℚ) = 0 then none
      else
        let term2 := term * (t / (k + (n : ℚ)))
        seriesLoop k t fuel (n + 1) term2 (s + term2)
    else some (n, term, s)) = seriesLoop k t fuel (n + 1) term2 s2
  rw [if_pos ⟨h1, h2⟩, if_neg h3]
  show seriesLoop k t fuel (n + 1) (term * (t / (k + (n : ℚ))))
      (s + term * (t / (k + (n : ℚ)))) = _
  rw [h4, h5]

/-- The loop exits as soon as the tolerance condition `|term| ≤ 1e-15`
holds. -/
theorem seriesLoop_stop_tol (k t : ℚ) (fuel n : ℕ) (term s : ℚ)
    (h1 : |term| ≤ tol) :
    seriesLoop k t fuel n term s = some (n, term, s) := by
  cases fuel with
  | zero => rfl
  | succ f =>
    show (if tol < |term| ∧ n < 2000 then _ else some (n, term, s)) = _
    rw [if_neg]
    rintro ⟨hlt, -⟩
    exact absurd h1 (not_le.mpr hlt)

/-- The loop exits as soon as the iteration cap `n ≥ 2000` is reached. -/
theorem seriesLoop_stop_cap (k t : ℚ) (fuel n : ℕ) (term s : ℚ)
    (h1 : 2000 ≤ n) :
    seriesLoop k t fuel n term s = some (n, term, s) := by
  cases fuel with
  | zero => rfl
  | succ f =>
    show (if tol < |term| ∧ n < 2000 then _ else some (n, term, s)) = _
    rw [if_neg]
    rintro ⟨-, hlt⟩
    omega

/-- Master lemma about a complete run of the loop, for `k > 0` (so the
division guard never fires): the run returns `some` final state; the final
`n` only grows and never exceeds `max n 2000`; with enough fuel the final
state satisfies the negated loop guard; and the `term` and `sum_val`
variables follow the closed forms `mterm` and `msum`. -/
theorem seriesLoop_run (k t : ℚ) (hk : 0 < k) :
    ∀ fuel n term s, 1 ≤ n →
      ∃ nf termf sf, seriesLoop k t fuel n term s = some (nf, termf, sf) ∧
        n ≤ nf ∧ nf ≤ max n 2000 ∧
        (2000 ≤ fuel + n → |termf| ≤ tol ∨ 2000 ≤ nf) ∧
        (term = mterm k t (n - 1) → s = msum k t (n - 1) →
          termf = mterm k t (nf - 1) ∧ sf = msum k t (nf - 1)) := by
  intro fuel
  induction fuel with
  | zero =>
    intro n term s hn
    exact ⟨n, term, s, rfl, le_refl n, le_max_left n 2000,
      fun h => Or.inr (by omega), fun h1 h2 => ⟨h1, h2⟩⟩
  | succ f ih =>
    intro n term s hn
    by_cases hc : tol < |term| ∧ n < 2000
    · have hnq : (0 : ℚ) < (n : ℚ) := by exact_mod_cast Nat.lt_of_lt_of_le Nat.zero_lt_one hn
      have hkn : k + (n : ℚ) ≠ 0 := by positivity
      have hstep := seriesLoop_step k t f n term s
        (term * (t / (k + (n : ℚ)))) (s + term * (t / (k + (n : ℚ))))
        hc.1 hc.2 hkn rfl rfl
      obtain ⟨nf, termf, sf, heq, hge, hle, hstop, hshape⟩ :=
        ih (n + 1) (term * (t / (k + (n : ℚ)))) (s + term * (t / (k + (n : ℚ)))) (by omega)
      refine ⟨nf, termf, sf, hstep.trans heq, by omega, ?_, fun h => hstop (by omega), ?_⟩
    -- the final index stays below the cap
      · have h1 : max (n + 1) 2000 = 2000 := max_eq_right (by omega)
        have h2 : 2000 ≤ max n 2000 := le_max_right n 2000
        omega
    -- the closed forms track the updated state
      · intro ht hs
        have hcast : ((n - 1 : ℕ) : ℚ) + 1 = (n : ℚ) := by
          have : ((n - 1 : ℕ) : ℚ) = (n : ℚ) - 1 := by
            push_cast [Nat.cast_sub hn]
            ring
          rw [this]; ring
        have hterm2 : term * (t / (k + (n : ℚ))) = mterm k t ((n - 1) + 1) := by
          rw [mterm_succ, ← ht, hcast]
        have hsum2 : s + term * (t / (k + (n : ℚ))) = msum k t ((n - 1) + 1) := by
          rw [msum_succ, ← hs, ← hterm2]
        have hn1 : (n - 1) + 1 = n := by omega
        rw [hn1] at hterm2 hsum2
        have h1 : (n + 1) - 1 = n := by omega
        exact hshape (by rw [h1, ← hterm2]) (by rw [h1, ← hsum2])
    · refine ⟨n, term, s, ?_, le_refl n, le_max_left n 2000, fun _ => ?_, fun h1 h2 => ⟨h1, h2⟩⟩
      · show (if tol < |term| ∧ n < 2000 then _ else some (n, term, s)) = _
        rw [if_neg hc]
      · rcases not_and_or.mp hc with h | h
        · exact Or.inl (not_lt.mp h)
        · exact Or.inr (by omega)

/-- C2 / C10 core: on the `x ≤ 0` branch the function returns `1.0`
immediately, for any `df` whatsoever. -/
theorem chi2_nonpos (x df : ℚ) (hx : x ≤ 0) :
    chi2_cdf_upper_tail x df = some 1 := by
  simp [chi2_cdf_upper_tail, hx]

/-- C2: for every `x ≤ 0` and every valid `df > 0`, the function returns
exactly `1.0`. -/
theorem chi2_nonpos_one (x df : ℚ) (hx : x ≤ 0) (hdf : 0 < df) :
    chi2_cdf_upper_tail x df = some 1 :=
  chi2_nonpos x df hx

/-- Witness for C2 at `x = -5`, `df = 7`. -/
theorem chi2_nonpos_one_witness :
    (-5 : ℚ) ≤ 0 ∧ (0 : ℚ) < 7 ∧ chi2_cdf_upper_tail (-5) 7 = some 1 :=
  ⟨by norm_num, by norm_num, chi2_nonpos_one (-5) 7 (by norm_num) (by norm_num)⟩

/-- C10: for every `x ≤ 0` and arbitrary `df` (including `df ≤ 0`), the
early return yields `1.0`: the branch precedes every transcendental call
and the series loop, so no domain error can arise from a non-positive `df`
here.  In the embedding this is visible in the fact that no hypothesis on
`df` is needed. -/
theorem chi2_nonpos_any_df (x df : ℚ) (hx : x ≤ 0) :
    chi2_cdf_upper_tail x df = some 1 :=
  chi2_nonpos x df hx

/-- Witness for C10 at `x = 0`, `df = -4` (a `df` that would poison
`lgamma(k+1)` if it were evaluated: `k + 1 = -1` is a pole). -/
theorem chi2_nonpos_any_df_witness :
    (0 : ℚ) ≤ 0 ∧ chi2_cdf_upper_tail 0 (-4) = some 1 ∧ plgamma (-4 / 2 + 1) = none :=
  ⟨le_refl 0, chi2_nonpos_any_df 0 (-4) (le_refl 0), by norm_num [plgamma]⟩

/-- Helper: complete description of `chi2_cdf_upper_tail` on the positive
branch `x > 0`, `df > 0`: the loop terminates at some index `N + 1 ≤ 2000`
satisfying the negated guard, and the function returns
`1 - exp(k·ln t - t - ln Γ(k+1)) · S` where `S = msum k t N` is the partial
series sum accumulated by the loop. -/
theorem chi2_spec (x df : ℚ) (hx : 0 < x) (hdf : 0 < df) :
    ∃ N : ℕ, N + 1 ≤ 2000 ∧
      (|mterm (df / 2) (x / 2) N| ≤ tol ∨ 2000 ≤ N + 1) ∧
      seriesLoop (df / 2) (x / 2) 2000 1 1 1 =
        some (N + 1, mterm (df / 2) (x / 2) N, msum (df / 2) (x / 2) N) ∧
      chi2_cdf_upper_tail x df =
        some (1 - Real.exp ((df : ℝ) / 2 * Real.log ((x : ℝ) / 2) - (x : ℝ) / 2
          - Real.log (Real.Gamma ((df : ℝ) / 2 + 1))) * ((msum (df / 2) (x / 2) N : ℚ) : ℝ)) := by
  have hk : 0 < df / 2 := by positivity
  have ht : 0 < x / 2 := by positivity
  obtain ⟨nf, termf, sf, heq, hge, hle, hstop, hshape⟩ :=
    seriesLoop_run (df / 2) (x / 2) hk 2000 1 1 1 (le_refl 1)
  obtain ⟨htermf, hsf⟩ := hshape (mterm_zero _ _).symm (msum_zero _ _).symm
  refine ⟨nf - 1, by omega, ?_, ?_, ?_⟩
  · have := hstop (by omega)
    rcases this with h | h
    · exact Or.inl (by rw [← htermf]; exact h)
    · exact Or.inr (by omega)
  · have hnf : nf = (nf - 1) + 1 := by omega
    rw [← htermf, ← hsf, ← hnf]
    exact heq
  · have hxle : ¬ x ≤ 0 := not_le.mpr hx
    have hgp : ¬ (df / 2 + 1 ≤ 0 ∧ (df / 2 + 1).den = 1) := by
      rintro ⟨hle0, -⟩
      nlinarith
    simp only [chi2_cdf_upper_tail, if_neg hxle, plog, if_pos ht, plgamma, if_neg hgp,
      Option.bind_eq_bind, Option.some_bind, heq]
    congr 2
    have hcast1 : ((df / 2 : ℚ) : ℝ) = (df : ℝ) / 2 := by push_cast; ring
    have hcast2 : ((x / 2 : ℚ) : ℝ) = (x : ℝ) / 2 := by push_cast; ring
    have hcast3 : ((df / 2 + 1 : ℚ) : ℝ) = (df : ℝ) / 2 + 1 := by push_cast; ring
    have hgabs : |Real.Gamma ((df : ℝ) / 2 + 1)| = Real.Gamma ((df : ℝ) / 2 + 1) :=
      abs_of_pos (Real.Gamma_pos_of_pos (by positivity))
    rw [hcast1, hcast2, hcast3, hgabs, ← hsf]

/-- C1: for `x > 0` and `df > 0`, the function returns
`1.0 - exp(log_term) · S` with `k = df/2`, `t = x/2`,
`log_term = k·ln t - t - lnGamma(k+1)`, and `S` the partial series sum
(`sum = 1`, `term = 1`, then `term *= t/(k+n)`, `sum += term`) accumulated
up to the index `N` at which the loop's termination condition holds. -/
theorem chi2_series_formula (x df : ℚ) (hx : 0 < x) (hdf : 0 < df) :
    ∃ N : ℕ,
      chi2_cdf_upper_tail x df =
        some (1 - Real.exp ((df : ℝ) / 2 * Real.log ((x : ℝ) / 2) - (x : ℝ) / 2
          - Real.log (Real.Gamma ((df : ℝ) / 2 + 1))) * ((msum (df / 2) (x / 2) N : ℚ) : ℝ)) ∧
      (|mterm (df / 2) (x / 2) N| ≤ tol ∨ 2000 ≤ N + 1) := by
  obtain ⟨N, -, hguard, -, hret⟩ := chi2_spec x df hx hdf
  exact ⟨N, hret, hguard⟩

/-- Witness for C1 at `x = 50`, `df = 15`. -/
theorem chi2_series_formula_witness :
    ∃ N : ℕ,
      chi2_cdf_upper_tail 50 15 =
        some (1 - Real.exp ((15 : ℝ) / 2 * Real.log ((50 : ℝ) / 2) - (50 : ℝ) / 2
          - Real.log (Real.Gamma ((15 : ℝ) / 2 + 1))) * ((msum (15 / 2) (50 / 2) N : ℚ) : ℝ)) ∧
      (|mterm (15 / 2) (50 / 2) N| ≤ tol ∨ 2000 ≤ N + 1) :=
  chi2_series_formula 50 15 (by norm_num) (by norm_num)

/-- C3: for `x > 0`, `df > 0` the series loop terminates with a `some`
final state `(nf, termf, sf)` whose guard is falsified
(`|termf| ≤ 1e-15` or `nf ≥ 2000`, i.e. at most 2000 loop states), and the
function returns `1 - exp(log_term) · sf` using the partial sum
accumulated so far. -/
theorem chi2_loop_terminates (x df : ℚ) (hx : 0 < x) (hdf : 0 < df) :
    ∃ nf : ℕ, ∃ termf sf : ℚ,
      seriesLoop (df / 2) (x / 2) 2000 1 1 1 = some (nf, termf, sf) ∧
      (|termf| ≤ tol ∨ 2000 ≤ nf) ∧ nf ≤ 2000 ∧
      chi2_cdf_upper_tail x df =
        some (1 - Real.exp ((df : ℝ) / 2 * Real.log ((x : ℝ) / 2) - (x : ℝ) / 2
          - Real.log (Real.Gamma ((df : ℝ) / 2 + 1))) * ((sf : ℚ) : ℝ)) := by
  obtain ⟨N, hcap, hguard, hloop, hret⟩ := chi2_spec x df hx hdf
  refine ⟨N + 1, mterm (df / 2) (x / 2) N, msum (df / 2) (x / 2) N, hloop, ?_, hcap, hret⟩
  rcases hguard with h | h
  · exact Or.inl h
  · exact Or.inr h

/-- Witness for C3 at `x = 50`, `df = 15`. -/
theorem chi2_loop_terminates_witness :
    ∃ nf : ℕ, ∃ termf sf : ℚ,
      seriesLoop (15 / 2) (50 / 2) 2000 1 1 1 = some (nf, termf, sf) ∧
      (|termf| ≤ tol ∨ 2000 ≤ nf) ∧ nf ≤ 2000 ∧
      chi2_cdf_upper_tail 50 15 =
        some (1 - Real.exp ((15 : ℝ) / 2 * Real.log ((50 : ℝ) / 2) - (50 : ℝ) / 2
          - Real.log (Real.Gamma ((15 : ℝ) / 2 + 1))) * ((sf : ℚ) : ℝ)) :=
  chi2_loop_terminates 50 15 (by norm_num) (by norm_num)

/-- C9: for `df > 0` every divisor `k + n` reached by the loop (which
always has `n ≥ 1`) is strictly positive, so the division `t / (k + n)` is
well-defined and the division-by-zero branch of the loop is unreachable:
the loop returns `some` state. -/
theorem seriesLoop_divisor_pos (x df : ℚ) (fuel n : ℕ) (term s : ℚ)
    (hdf : 0 < df) (hn : 1 ≤ n) :
    (0 : ℚ) < df / 2 + (n : ℚ) ∧
      ∃ r, seriesLoop (df / 2) (x / 2) fuel n term s = some r := by
  have hnq : (0 : ℚ) < (n : ℚ) := by exact_mod_cast Nat.lt_of_lt_of_le Nat.zero_lt_one hn
  constructor
  · positivity
  · obtain ⟨nf, termf, sf, heq, -, -, -, -⟩ :=
      seriesLoop_run (df / 2) (x / 2) (by positivity) fuel n term s hn
    exact ⟨_, heq⟩

/-- Witness for C9 at `x = 50`, `df = 15`, initial state. -/
theorem seriesLoop_divisor_pos_witness :
    (0 : ℚ) < 15 / 2 + ((1 : ℕ) : ℚ) ∧
      ∃ r, seriesLoop (15 / 2) (50 / 2) 2000 1 1 1 = some r :=
  seriesLoop_divisor_pos 50 15 2000 1 1 1 (by norm_num) (le_refl 1)

/-- C8: the function is deterministic: equal inputs give equal results.  In
the embedding `chi2_cdf_upper_tail` is a pure function of its arguments (it
reads and writes no outside state by construction), so determinism is
congruence. -/
theorem chi2_deterministic (x df x' df' : ℚ) (hx : x = x') (hdf : df = df') :
    chi2_cdf_upper_tail x df = chi2_cdf_upper_tail x' df' := by
  rw [hx, hdf]

/-- Witness for C8 at `x = 50`, `df = 15`. -/
theorem chi2_deterministic_witness :
    chi2_cdf_upper_tail 50 15 = chi2_cdf_upper_tail 50 15 :=
  chi2_deterministic 50 15 50 15 rfl rfl

/-- Positivity of `prodShift` for `k > 0`. -/
theorem prodShift_pos (k : ℝ) (hk : 0 < k) (j : ℕ) : 0 < prodShift k j := by
  refine Finset.prod_pos fun i _ => ?_
  have : (0 : ℝ) ≤ (i : ℝ) := Nat.cast_nonneg i
  positivity

/-- Recurrence: `Γ(k + j + 1) = Γ(k + 1) · (k+1)⋯(k+j)`. -/
theorem Gamma_prodShift (k : ℝ) (hk : 0 < k) (j : ℕ) :
    Real.Gamma (k + (j : ℝ) + 1) = Real.Gamma (k + 1) * prodShift k j := by
  induction j with
  | zero => simp [prodShift]
  | succ j ih =>
    have hne : k + (j : ℝ) + 1 ≠ 0 := by
      have : (0 : ℝ) ≤ (j : ℝ) := Nat.cast_nonneg j
      positivity
    have h1 : k + ((j + 1 : ℕ) : ℝ) + 1 = (k + (j : ℝ) + 1) + 1 := by push_cast; ring
    rw [h1, Real.Gamma_add_one hne, ih]
    have h2 : prodShift k (j + 1) = prodShift k j * (k + ((j : ℝ) + 1)) := by
      simp only [prodShift, Finset.prod_range_succ]
    rw [h2]
    ring

/-- The rational series term, cast to `ℝ`, is `t^j / ((k+1)⋯(k+j))`. -/
theorem mterm_cast (k t : ℚ) (j : ℕ) :
    ((mterm k t j : ℚ) : ℝ) = (t : ℝ) ^ j / prodShift (k : ℝ) j := by
  rw [mterm, prodShift]
  push_cast
  rw [Finset.prod_div_distrib, Finset.prod_const, Finset.card_range]


/-- Each real series term factors through the leading coefficient
`t^k e^(-t) / Γ(k+1)` and the rational part `t^n / ((k+1)⋯(k+n))`. -/
theorem gterm_eq (k : ℝ) (hk : 0 < k) (t : ℝ) (ht : 0 < t) (n : ℕ) :
    gterm (k + (n : ℝ)) t =
      t ^ k * Real.exp (-t) / Real.Gamma (k + 1) * (t ^ n / prodShift k n) := by
  rw [gterm, Gamma_prodShift k hk n, Real.rpow_add ht, Real.rpow_natCast]
  have h1 : Real.Gamma (k + 1) ≠ 0 := (Real.Gamma_pos_of_pos (by positivity)).ne'
  have h2 : prodShift k n ≠ 0 := (prodShift_pos k hk n).ne'
  field_simp
  ring

/-- Bridge between the code's value `exp(log_term) · sum_val` and the
real-analytic truncated series `Fsum`. -/
theorem exp_msum_eq_Fsum (k t : ℚ) (hk : 0 < k) (ht : 0 < t) (N : ℕ) :
    Real.exp ((k : ℝ) * Real.log (t : ℝ) - (t : ℝ)
        - Real.log (Real.Gamma ((k : ℝ) + 1))) * ((msum k t N : ℚ) : ℝ) =
      Fsum (k : ℝ) N (t : ℝ) := by
  have hkR : (0 : ℝ) < (k : ℝ) := by exact_mod_cast hk
  have htR : (0 : ℝ) < (t : ℝ) := by exact_mod_cast ht
  have hE : Real.exp ((k : ℝ) * Real.log (t : ℝ) - (t : ℝ)
      - Real.log (Real.Gamma ((k : ℝ) + 1)))
      = (t : ℝ) ^ (k : ℝ) * Real.exp (-(t : ℝ)) / Real.Gamma ((k : ℝ) + 1) := by
    rw [sub_eq_add_neg, sub_eq_add_neg, Real.exp_add, Real.exp_add, Real.exp_neg, Real.exp_neg,
      Real.exp_log (Real.Gamma_pos_of_pos (by positivity)),
      mul_comm ((k : ℝ)) (Real.log (t : ℝ)), ← Real.rpow_def_of_pos htR]
    ring
  rw [hE, msum, Rat.cast_sum, Finset.mul_sum, Fsum]
  refine Finset.sum_congr rfl fun n _ => ?_
  rw [mterm_cast, gterm_eq (k : ℝ) hkR (t : ℝ) htR n]


/-- The Gamma integrand is nonnegative on nonnegative arguments. -/
theorem gi_nonneg (s u : ℝ) (hu : 0 ≤ u) : 0 ≤ gi s u :=
  mul_nonneg (Real.exp_pos _).le (Real.rpow_nonneg hu _)

/-- The Gamma integrand is interval integrable on `[0, t]` (this is the
convergence of the Gamma integral restricted to a bounded interval). -/
theorem intervalIntegrable_gi (s : ℝ) (hs : 0 < s) (t : ℝ) (ht : 0 ≤ t) :
    IntervalIntegrable (gi s) MeasureTheory.volume 0 t := by
  rw [intervalIntegrable_iff_integrableOn_Ioc_of_le ht]
  exact (Real.GammaIntegral_convergent hs).mono_set Set.Ioc_subset_Ioi_self

/-- Derivative of a single series term, in telescoping form. -/
theorem hasDerivAt_gterm (s : ℝ) (hs : 0 < s) (u : ℝ) (hu : 0 < u) :
    HasDerivAt (fun v => gterm s v)
      (gi s u / Real.Gamma s - gi (s + 1) u / Real.Gamma (s + 1)) u := by
  have h1 : HasDerivAt (fun v : ℝ => v ^ s) (s * u ^ (s - 1)) u :=
    Real.hasDerivAt_rpow_const (Or.inl hu.ne')
  have h2 : HasDerivAt (fun v : ℝ => Real.exp (-v)) (-Real.exp (-u)) u := by
    simpa using (Real.hasDerivAt_exp (-u)).comp u (hasDerivAt_neg u)
  have h3 := (h1.mul h2).div_const (Real.Gamma (s + 1))
  have hval : gi s u / Real.Gamma s - gi (s + 1) u / Real.Gamma (s + 1)
      = (s * u ^ (s - 1) * Real.exp (-u) + u ^ s * -Real.exp (-u))
        / Real.Gamma (s + 1) := by
    rw [Real.Gamma_add_one hs.ne']
    have hg : Real.Gamma s ≠ 0 := (Real.Gamma_pos_of_pos hs).ne'
    have hsub : s + 1 - 1 = s := by ring
    rw [gi, gi, hsub]
    field_simp
    ring
  rw [hval]
  exact h3

/-- Derivative of the truncated series: the terms telescope, leaving
`gi k / Γ k - gi (k+N+1) / Γ (k+N+1)`. -/
theorem hasDerivAt_Fsum (k : ℝ) (hk : 0 < k) (N : ℕ) (u : ℝ) (hu : 0 < u) :
    HasDerivAt (Fsum k N) (Dfun k N u) u := by
  have h : ∀ n ∈ Finset.range (N + 1),
      HasDerivAt (fun v => gterm (k + (n : ℝ)) v)
        (gi (k + (n : ℝ)) u / Real.Gamma (k + (n : ℝ))
          - gi ((k + (n : ℝ)) + 1) u / Real.Gamma ((k + (n : ℝ)) + 1)) u :=
    fun n _ => hasDerivAt_gterm (k + (n : ℝ)) (by positivity) u hu
  have hsum := HasDerivAt.sum h
  have htel : ∑ n in Finset.range (N + 1),
      (gi (k + (n : ℝ)) u / Real.Gamma (k + (n : ℝ))
        - gi ((k + (n : ℝ)) + 1) u / Real.Gamma ((k + (n : ℝ)) + 1)) = Dfun k N u := by
    have hcongr : ∀ n ∈ Finset.range (N + 1),
        gi (k + (n : ℝ)) u / Real.Gamma (k + (n : ℝ))
          - gi ((k + (n : ℝ)) + 1) u / Real.Gamma ((k + (n : ℝ)) + 1)
        = (fun j : ℕ => gi (k + (j : ℝ)) u / Real.Gamma (k + (j : ℝ))) n
          - (fun j : ℕ => gi (k + (j : ℝ)) u / Real.Gamma (k + (j : ℝ))) (n + 1) := by
      intro n _
      have : (k + (n : ℝ)) + 1 = k + ((n + 1 : ℕ) : ℝ) := by push_cast; ring
      rw [this]
    rw [Finset.sum_congr rfl hcongr,
      Finset.sum_range_sub' (fun j : ℕ => gi (k + (j : ℝ)) u / Real.Gamma (k + (j : ℝ)))]
    have h0 : k + ((0 : ℕ) : ℝ) = k := by push_cast; ring
    have hN : k + ((N + 1 : ℕ) : ℝ) = k + ((N : ℝ) + 1) := by push_cast; ring
    rw [Dfun, h0, hN]
  rw [← htel]
  exact hsum

/-- The truncated series is continuous in `u` (every exponent `k + n` is
positive, so each power function is continuous also at `0`). -/
theorem continuous_Fsum (k : ℝ) (hk : 0 < k) (N : ℕ) : Continuous (Fsum k N) := by
  apply continuous_finset_sum
  intro n _
  have h1 : Continuous fun u : ℝ => u ^ (k + (n : ℝ)) :=
    continuous_iff_continuousAt.mpr fun x =>
      Real.continuousAt_rpow_const x _ (Or.inr (by positivity))
  have h2 : Continuous fun u : ℝ => Real.exp (-u) := Real.continuous_exp.comp continuous_neg
  exact (h1.mul h2).div_const _

/-- The truncated series vanishes at `u = 0`. -/
theorem Fsum_zero_eq (k : ℝ) (hk : 0 < k) (N : ℕ) : Fsum k N 0 = 0 := by
  refine Finset.sum_eq_zero fun n _ => ?_
  rw [gterm, Real.zero_rpow (by positivity), zero_mul, zero_div]

/-- The telescoped derivative is interval integrable on `[0, t]`. -/
theorem intervalIntegrable_Dfun (k : ℝ) (hk : 0 < k) (N : ℕ) (t : ℝ) (ht : 0 ≤ t) :
    IntervalIntegrable (Dfun k N) MeasureTheory.volume 0 t := by
  have h1 := (intervalIntegrable_gi k hk t ht).div_const (Real.Gamma k)
  have h2 := (intervalIntegrable_gi (k + ((N : ℝ) + 1)) (by positivity) t ht).div_const
    (Real.Gamma (k + ((N : ℝ) + 1)))
  exact h1.sub h2

/-- Fundamental theorem of calculus for the truncated series on `[0, t]`. -/
theorem Fsum_eq_integral (k : ℝ) (hk : 0 < k) (N : ℕ) (t : ℝ) (ht : 0 ≤ t) :
    Fsum k N t = ∫ u in (0 : ℝ)..t, Dfun k N u := by
  have hftc := intervalIntegral.integral_eq_sub_of_hasDeriv_right_of_le ht
    ((continuous_Fsum k hk N).continuousOn)
    (fun u hu => (hasDerivAt_Fsum k hk N u hu.1).hasDerivWithinAt)
    (intervalIntegrable_Dfun k hk N t ht)
  rw [hftc, Fsum_zero_eq k hk N, sub_zero]

/-- The partial Gamma integral is at most the full Gamma integral. -/
theorem integral_gi_le (k : ℝ) (hk : 0 < k) (t : ℝ) (ht : 0 ≤ t) :
    (∫ u in (0 : ℝ)..t, gi k u) ≤ Real.Gamma k := by
  rw [intervalIntegral.integral_of_le ht, Real.Gamma_eq_integral hk]
  apply MeasureTheory.setIntegral_mono_set (Real.GammaIntegral_convergent hk)
  · filter_upwards [MeasureTheory.ae_restrict_mem measurableSet_Ioi] with u hu
    exact gi_nonneg k u (le_of_lt hu)
  · exact HasSubset.Subset.eventuallyLE Set.Ioc_subset_Ioi_self

/-- Core analytic bound: the truncated series value is at most `1` — the
computed CDF never exceeds one, for any truncation point. -/
theorem Fsum_le_one (k : ℝ) (hk : 0 < k) (N : ℕ) (t : ℝ) (ht : 0 ≤ t) :
    Fsum k N t ≤ 1 := by
  rw [Fsum_eq_integral k hk N t ht]
  have hΓ : 0 < Real.Gamma k := Real.Gamma_pos_of_pos hk
  have hmono : (∫ u in (0 : ℝ)..t, Dfun k N u)
      ≤ ∫ u in (0 : ℝ)..t, gi k u / Real.Gamma k := by
    apply intervalIntegral.integral_mono_on ht (intervalIntegrable_Dfun k hk N t ht)
      ((intervalIntegrable_gi k hk t ht).div_const (Real.Gamma k))
    intro u hu
    have hpos : 0 ≤ gi (k + ((N : ℝ) + 1)) u / Real.Gamma (k + ((N : ℝ) + 1)) :=
      div_nonneg (gi_nonneg _ u hu.1) (Real.Gamma_pos_of_pos (by positivity)).le
    rw [Dfun]
    linarith
  have hdiv : (∫ u in (0 : ℝ)..t, gi k u / Real.Gamma k)
      = (∫ u in (0 : ℝ)..t, gi k u) / Real.Gamma k :=
    intervalIntegral.integral_div (Real.Gamma k) (gi k)
  have hle := integral_gi_le k hk t ht
  have : (∫ u in (0 : ℝ)..t, gi k u) / Real.Gamma k ≤ 1 :=
    (div_le_one hΓ).mpr hle
  linarith

/-- The truncated series value is nonnegative for `t ≥ 0`. -/
theorem Fsum_nonneg (k : ℝ) (hk : 0 < k) (N : ℕ) (t : ℝ) (ht : 0 ≤ t) :
    0 ≤ Fsum k N t := by
  refine Finset.sum_nonneg fun n _ => ?_
  rw [gterm]
  have h1 : 0 ≤ t ^ (k + (n : ℝ)) := Real.rpow_nonneg ht _
  have h2 : 0 < Real.Gamma (k + (n : ℝ) + 1) := Real.Gamma_pos_of_pos (by positivity)
  positivity


/-- C4 (supporting theorem for the code-bug report): in exact arithmetic
the returned value always lies in `[0, 1]` — on the `x ≤ 0` branch the
value is `1`, and on the positive branch the computed CDF equals the
truncated incomplete-gamma series `Fsum`, which is nonnegative and at
most `1`.  This is the documented intent ("Returns: P(χ² > x)", a
probability).  The float program violates the claim: at
`x = 2000000`, `df = 2` the loop's `term` overflows to `inf`,
`exp(log_term)` underflows to `0.0`, `cdf = 0.0 * inf = nan`, and the
function returns `nan ∉ [0, 1]` — a silent-overflow slip relative to
this provable exact-arithmetic contract. -/
theorem chi2_in_unit_interval (x df : ℚ) (hdf : 0 < df) :
    ∃ y : ℝ, chi2_cdf_upper_tail x df = some y ∧ 0 ≤ y ∧ y ≤ 1 := by
  by_cases hx : x ≤ 0
  · exact ⟨1, chi2_nonpos x df hx, by norm_num, le_refl 1⟩
  · have hx' : 0 < x := not_le.mp hx
    obtain ⟨N, -, -, -, hret⟩ := chi2_spec x df hx' hdf
    have hbridge := exp_msum_eq_Fsum (df / 2) (x / 2) (by positivity) (by positivity) N
    push_cast at hbridge
    have hkR : (0 : ℝ) < (df : ℝ) / 2 := by
      have : (0 : ℝ) < (df : ℝ) := by exact_mod_cast hdf
      linarith
    have htR : (0 : ℝ) ≤ (x : ℝ) / 2 := by
      have : (0 : ℝ) < (x : ℝ) := by exact_mod_cast hx'
      linarith
    refine ⟨_, hret, ?_, ?_⟩
    · rw [hbridge]
      have := Fsum_le_one ((df : ℝ) / 2) hkR N ((x : ℝ) / 2) htR
      linarith
    · rw [hbridge]
      have := Fsum_nonneg ((df : ℝ) / 2) hkR N ((x : ℝ) / 2) htR
      linarith

/-- Witness for C4 at `x = 50`, `df = 15`. -/
theorem chi2_in_unit_interval_witness :
    ∃ y : ℝ, chi2_cdf_upper_tail 50 15 = some y ∧ 0 ≤ y ∧ y ≤ 1 :=
  chi2_in_unit_interval 50 15 (by norm_num)


/-- Fact: `tol < a` implies `tol < |a|` (for the loop guard at positive terms). -/
theorem tol_lt_abs_of_pos (a : ℚ) (h : tol < a) : tol < |a| := by
  have h0 : 0 ≤ a := le_trans (by norm_num [tol]) h.le
  rwa [abs_of_nonneg h0]

/-- Fact: `0 ≤ a ≤ tol` implies `|a| ≤ tol` (for the loop exit at the final
term). -/
theorem abs_le_tol_of_pos (a : ℚ) (h0 : 0 ≤ a) (h : a ≤ tol) : |a| ≤ tol := by
  rwa [abs_of_nonneg h0]

/-- Explicit evaluation of the series loop at `k = 15/2`, `t = 25`:
the loop stops at `n = 77` by the tolerance condition.  Each step is
one application of `seriesLoop_step` with the exact rational state. -/
theorem seriesLoop_eval_50_15 :
    seriesLoop (15 / 2) 25 2000 1 1 1 = some (77, 69388939039072283776476979255676269531250000000000000000000000000000000000000000000000000000000000000000000000000000 / 101918629118847773848721528043857908807956912451725225060255871424339676101294513979889563592174085144363461903064237787294433488621, 1017440289181847853939192446005832427347163390061730684453328247788010414863043041491961666050749183454666940121603768490490476368463 / 30726146855245032815411977100952037626758188860936154675989108056780125445069193240847019473070269865650727133875260110730911513) := by
  have e0 : seriesLoop (15 / 2) 25 2000 1 (1) (1) = seriesLoop (15 / 2) 25 1999 2 (50 / 17) (67 / 17) :=
    seriesLoop_step (15 / 2) 25 1999 1 (1) (1) (50 / 17) (67 / 17) (tol_lt_abs_of_pos _ (by norm_num [tol])) (by norm_num) (by norm_num) (by norm_num) (by norm_num)
  have e1 : seriesLoop (15 / 2) 25 1999 2 (50 / 17) (67 / 17) = seriesLoop (15 / 2) 25 1998 3 (2500 / 323) (3773 / 323) :=
    seriesLoop_step (15 / 2) 25 1998 2 (50 / 17) (67 / 17) (2500 / 323) (3773 / 323) (tol_lt_abs_of_pos _ (by norm_num [tol])) (by norm_num) (by norm_num) (by norm_num) (by norm_num)
  have e2 : seriesLoop (15 / 2) 25 1998 3 (2500 / 323) (3773 / 323) = seriesLoop (15 / 2) 25 1997 4 (125000 / 6783) (204233 / 6783) :=
    seriesLoop_step (15 / 2) 25 1997 3 (2500 / 323) (3773 / 323) (125000 / 6783) (204233 / 6783) (tol_lt_abs_of_pos _ (by norm_num [tol])) (by norm_num) (by norm_num) (by norm_num) (by norm_num)
  have e3 : seriesLoop (15 / 2) 25 1997 4 (125000 / 6783) (204233 / 6783) = seriesLoop (15 / 2) 25 1996 5 (6250000 / 156009) (10947359 / 156009) :=
    seriesLoop_step (15 / 2) 25 1996 4 (125000 / 6783) (204233 / 6783) (6250000 / 156009) (10947359 / 156009) (tol_lt_abs_of_pos _ (by norm_num [tol])) (by norm_num) (by norm_num) (by norm_num) (by norm_num)
  have e4 : seriesLoop (15 / 2) 25 1996 5 (6250000 / 156009) (10947359 / 156009) = seriesLoop (15 / 2) 25 1995 6 (12500000 / 156009) (23447359 / 156009) :=
    seriesLoop_step (15 / 2) 25 1995 5 (6250000 / 156009) (10947359 / 156009) (12500000 / 156009) (23447359 / 156009) (tol_lt_abs_of_pos _ (by norm_num [tol])) (by norm_num) (by norm_num) (by norm_num) (by norm_num)
  have e5 : seriesLoop (15 / 2) 25 1995 6 (12500000 / 156009) (23447359 / 156009) = seriesLoop (15 / 2) 25 1994 7 (625000000 / 4212243) (74004629 / 247779) :=
    seriesLoop_step (15 / 2) 25 1994 6 (12500000 / 156009) (23447359 / 156009) (625000000 / 4212243) (74004629 / 247779) (tol_lt_abs_of_pos _ (by norm_num [tol])) (by norm_num) (by norm_num) (by norm_num) (by norm_num)
  have e6 : seriesLoop (15 / 2) 25 1994 7 (625000000 / 4212243) (74004629 / 247779) = seriesLoop (15 / 2) 25 1993 8 (31250000000 / 122155047) (67734282097 / 122155047) :=
    seriesLoop_step (15 / 2) 25 1993 7 (625000000 / 4212243) (74004629 / 247779) (31250000000 / 122155047) (67734282097 / 122155047) (tol_lt_abs_of_pos _ (by norm_num [tol])) (by norm_num) (by norm_num) (by norm_num) (by norm_num)
  have e7 : seriesLoop (15 / 2) 25 1993 8 (31250000000 / 122155047) (67734282097 / 122155047) = seriesLoop (15 / 2) 25 1992 9 (1562500000000 / 3786806457) (3662262745007 / 3786806457) :=
    seriesLoop_step (15 / 2) 25 1992 8 (31250000000 / 122155047) (67734282097 / 122155047) (1562500000000 / 3786806457) (3662262745007 / 3786806457) (tol_lt_abs_of_pos _ (by norm_num [tol])) (by norm_num) (by norm_num) (by norm_num) (by norm_num)
  have e8 : seriesLoop (15 / 2) 25 1992 9 (1562500000000 / 3786806457) (3662262745007 / 3786806457) = seriesLoop (15 / 2) 25 1991 10 (78125000000000 / 124964613081) (198979670585231 / 124964613081) :=
    seriesLoop_step (15 / 2) 25 1991 9 (1562500000000 / 3786806457) (3662262745007 / 3786806457) (78125000000000 / 124964613081) (198979670585231 / 124964613081) (tol_lt_abs_of_pos _ (by norm_num [tol])) (by norm_num) (by norm_num) (by norm_num) (by norm_num)
  have e9 : seriesLoop (15 / 2) 25 1991 10 (78125000000000 / 124964613081) (198979670585231 / 124964613081) = seriesLoop (15 / 2) 25 1990 11 (781250000000000 / 874752291567) (2174107694096617 / 874752291567) :=
    seriesLoop_step (15 / 2) 25 1990 10 (78125000000000 / 124964613081) (198979670585231 / 124964613081) (781250000000000 / 874752291567) (2174107694096617 / 874752291567) (tol_lt_abs_of_pos _ (by norm_num [tol])) (by norm_num) (by norm_num) (by norm_num) (by norm_num)
  have e10 : seriesLoop (15 / 2) 25 1990 11 (781250000000000 / 874752291567) (2174107694096617 / 874752291567) = seriesLoop (15 / 2) 25 1989 12 (39062500000000000 / 32365834787979) (119504484681574829 / 32365834787979) :=
    seriesLoop_step (15 / 2) 25 1989 11 (781250000000000 / 874752291567) (2174107694096617 / 874752291567) (39062500000000000 / 32365834787979) (119504484681574829 / 32365834787979) (tol_lt_abs_of_pos _ (by norm_num [tol])) (by norm_num) (by norm_num) (by norm_num) (by norm_num)
  have e11 : seriesLoop (15 / 2) 25 1989 12 (39062500000000000 / 32365834787979) (119504484681574829 / 32365834787979) = seriesLoop (15 / 2) 25 1988 13 (1953125000000000000 / 1262267556731181) (213348383954239301 / 40718308281651) :=
    seriesLoop_step (15 / 2) 25 1988 12 (39062500000000000 / 32365834787979) (119504484681574829 / 32365834787979) (1953125000000000000 / 1262267556731181) (213348383954239301 / 40718308281651) (tol_lt_abs_of_pos _ (by norm_num [tol])) (by norm_num) (by norm_num) (by norm_num) (by norm_num)
  have e12 : seriesLoop (15 / 2) 25 1988 13 (1953125000000000000 / 1262267556731181) (213348383954239301 / 40718308281651) = seriesLoop (15 / 2) 25 1987 14 (97656250000000000000 / 51752969825978421) (28370926615833703967 / 3980997678921417) :=
    seriesLoop_step (15 / 2) 25 1987 13 (1953125000000000000 / 1262267556731181) (213348383954239301 / 40718308281651) (97656250000000000000 / 51752969825978421) (28370926615833703967 / 3980997678921417) (tol_lt_abs_of_pos _ (by norm_num [tol])) (by norm_num) (by norm_num) (by norm_num) (by norm_num)
  have e13 : seriesLoop (15 / 2) 25 1987 14 (97656250000000000000 / 51752969825978421) (28370926615833703967 / 3980997678921417) = seriesLoop (15 / 2) 25 1986 15 (4882812500000000000000 / 2225377702517072103) (669101950911323887663 / 71786377500550713) :=
    seriesLoop_step (15 / 2) 25 1986 14 (97656250000000000000 / 51752969825978421) (28370926615833703967 / 3980997678921417) (4882812500000000000000 / 2225377702517072103) (669101950911323887663 / 71786377500550713) (tol_lt_abs_of_pos _ (by norm_num [tol])) (by norm_num) (by norm_num) (by norm_num) (by norm_num)
  have e14 : seriesLoop (15 / 2) 25 1986 15 (4882812500000000000000 / 2225377702517072103) (669101950911323887663 / 71786377500550713) = seriesLoop (15 / 2) 25 1985 16 (48828125000000000000000 / 20028399322653648927) (235507569304259364657977 / 20028399322653648927) :=
    seriesLoop_step (15 / 2) 25 1985 15 (4882812500000000000000 / 2225377702517072103) (669101950911323887663 / 71786377500550713) (48828125000000000000000 / 20028399322653648927) (235507569304259364657977 / 20028399322653648927) (tol_lt_abs_of_pos _ (by norm_num [tol])) (by norm_num) (by norm_num) (by norm_num) (by norm_num)
  have e15 : seriesLoop (15 / 2) 25 1985 16 (48828125000000000000000 / 20028399322653648927) (235507569304259364657977 / 20028399322653648927) = seriesLoop (15 / 2) 25 1984 17 (2441406250000000000000000 / 941334768164721499569) (13510262007300190138924919 / 941334768164721499569) :=
    seriesLoop_step (15 / 2) 25 1984 16 (48828125000000000000000 / 20028399322653648927) (235507569304259364657977 / 20028399322653648927) (2441406250000000000000000 / 941334768164721499569) (13510262007300190138924919 / 941334768164721499569) (tol_lt_abs_of_pos _ (by norm_num [tol])) (by norm_num) (by norm_num) (by norm_num) (by norm_num)
  have e16 : seriesLoop (15 / 2) 25 1984 17 (2441406250000000000000000 / 941334768164721499569) (13510262007300190138924919 / 941334768164721499569) = seriesLoop (15 / 2) 25 1983 18 (122070312500000000000000000 / 46125403640071353478881) (784073150857709316807321031 / 46125403640071353478881) :=
    seriesLoop_step (15 / 2) 25 1983 17 (2441406250000000000000000 / 941334768164721499569) (13510262007300190138924919 / 941334768164721499569) (122070312500000000000000000 / 46125403640071353478881) (784073150857709316807321031 / 46125403640071353478881) (tol_lt_abs_of_pos _ (by norm_num [tol])) (by norm_num) (by norm_num) (by norm_num) (by norm_num)
  have e17 : seriesLoop (15 / 2) 25 1983 18 (122070312500000000000000000 / 46125403640071353478881) (784073150857709316807321031 / 46125403640071353478881) = seriesLoop (15 / 2) 25 1982 19 (6103515625000000000000000000 / 2352395585643639027422931) (46091246318743175157173372581 / 2352395585643639027422931) :=
    seriesLoop_step (15 / 2) 25 1982 18 (122070312500000000000000000 / 46125403640071353478881) (784073150857709316807321031 / 46125403640071353478881) (6103515625000000000000000000 / 2352395585643639027422931) (46091246318743175157173372581 / 2352395585643639027422931) (tol_lt_abs_of_pos _ (by norm_num [tol])) (by norm_num) (by norm_num) (by norm_num) (by norm_num)
  have e18 : seriesLoop (15 / 2) 25 1982 19 (6103515625000000000000000000 / 2352395585643639027422931) (46091246318743175157173372581 / 2352395585643639027422931) = seriesLoop (15 / 2) 25 1981 20 (305175781250000000000000000000 / 124676966039112868453415343) (249819257831217116666380795163 / 11334269639919351677583213) :=
    seriesLoop_step (15 / 2) 25 1981 19 (6103515625000000000000000000 / 2352395585643639027422931) (46091246318743175157173372581 / 2352395585643639027422931) (305175781250000000000000000000 / 124676966039112868453415343) (249819257831217116666380795163 / 11334269639919351677583213) (tol_lt_abs_of_pos _ (by norm_num [tol])) (by norm_num) (by norm_num) (by norm_num) (by norm_num)
  have e19 : seriesLoop (15 / 2) 25 1981 20 (305175781250000000000000000000 / 124676966039112868453415343) (249819257831217116666380795163 / 11334269639919351677583213) = seriesLoop (15 / 2) 25 1980 21 (3051757812500000000000000000000 / 1371446626430241552987568773) (2559991385390559316664005862671 / 105495894340787811768274521) :=
    seriesLoop_step (15 / 2) 25 1980 20 (305175781250000000000000000000 / 124676966039112868453415343) (249819257831217116666380795163 / 11334269639919351677583213) (3051757812500000000000000000000 / 1371446626430241552987568773) (2559991385390559316664005862671 / 105495894340787811768274521) (tol_lt_abs_of_pos _ (by norm_num [tol])) (by norm_num) (by norm_num) (by norm_num) (by norm_num)
  have e20 : seriesLoop (15 / 2) 25 1980 21 (3051757812500000000000000000000 / 1371446626430241552987568773) (2559991385390559316664005862671 / 105495894340787811768274521) = seriesLoop (15 / 2) 25 1979 22 (152587890625000000000000000000000 / 78172457706523768520291420061) (2049541507199404453648028344239211 / 78172457706523768520291420061) :=
    seriesLoop_step (15 / 2) 25 1979 21 (3051757812500000000000000000000 / 1371446626430241552987568773) (2559991385390559316664005862671 / 105495894340787811768274521) (152587890625000000000000000000000 / 78172457706523768520291420061) (2049541507199404453648028344239211 / 78172457706523768520291420061) (tol_lt_abs_of_pos _ (by norm_num [tol])) (by norm_num) (by norm_num) (by norm_num) (by norm_num)
  have e21 : seriesLoop (15 / 2) 25 1979 22 (152587890625000000000000000000000 / 78172457706523768520291420061) (2049541507199404453648028344239211 / 78172457706523768520291420061) = seriesLoop (15 / 2) 25 1978 23 (7629394531250000000000000000000000 / 4612175004684902342697193783599) (128552343456014862765233672310113449 / 4612175004684902342697193783599) :=
    seriesLoop_step (15 / 2) 25 1978 22 (152587890625000000000000000000000 / 78172457706523768520291420061) (2049541507199404453648028344239211 / 78172457706523768520291420061) (7629394531250000000000000000000000 / 4612175004684902342697193783599) (128552343456014862765233672310113449 / 4612175004684902342697193783599) (tol_lt_abs_of_pos _ (by norm_num [tol])) (by norm_num) (by norm_num) (by norm_num) (by norm_num)
  have e22 : seriesLoop (15 / 2) 25 1978 23 (7629394531250000000000000000000000 / 4612175004684902342697193783599) (128552343456014862765233672310113449 / 4612175004684902342697193783599) = seriesLoop (15 / 2) 25 1977 24 (381469726562500000000000000000000000 / 281342675285779042904528820799539) (483715451610553331098779647700995317 / 16549569134457590759089930635267) :=
    seriesLoop_step (15 / 2) 25 1977 23 (7629394531250000000000000000000000 / 4612175004684902342697193783599) (128552343456014862765233672310113449 / 4612175004684902342697193783599) (381469726562500000000000000000000000 / 281342675285779042904528820799539) (483715451610553331098779647700995317 / 16549569134457590759089930635267) (tol_lt_abs_of_pos _ (by norm_num [tol])) (by norm_num) (by norm_num) (by norm_num) (by norm_num)
  have e23 : seriesLoop (15 / 2) 25 1977 24 (381469726562500000000000000000000000 / 281342675285779042904528820799539) (483715451610553331098779647700995317 / 16549569134457590759089930635267) = seriesLoop (15 / 2) 25 1976 25 (19073486328125000000000000000000000000 / 17724588543004079702985315710370957) (17326862419452503793767516215734386597 / 571760920742067087193074700334547) :=
    seriesLoop_step (15 / 2) 25 1976 24 (381469726562500000000000000000000000 / 281342675285779042904528820799539) (483715451610553331098779647700995317 / 16549569134457590759089930635267) (19073486328125000000000000000000000000 / 17724588543004079702985315710370957) (17326862419452503793767516215734386597 / 571760920742067087193074700334547) (tol_lt_abs_of_pos _ (by norm_num [tol])) (by norm_num) (by norm_num) (by norm_num) (by norm_num)
  have e24 : seriesLoop (15 / 2) 25 1976 25 (19073486328125000000000000000000000000 / 17724588543004079702985315710370957) (17326862419452503793767516215734386597 / 571760920742067087193074700334547) = seriesLoop (15 / 2) 25 1975 26 (190734863281250000000000000000000000000 / 230419651059053036138809104234822441) (7173460418320609028888309034940957798591 / 230419651059053036138809104234822441) :=
    seriesLoop_step (15 / 2) 25 1975 25 (19073486328125000000000000000000000000 / 17724588543004079702985315710370957) (17326862419452503793767516215734386597 / 571760920742067087193074700334547) (190734863281250000000000000000000000000 / 230419651059053036138809104234822441) (7173460418320609028888309034940957798591 / 230419651059053036138809104234822441) (tol_lt_abs_of_pos _ (by norm_num [tol])) (by norm_num) (by norm_num) (by norm_num) (by norm_num)
  have e25 : seriesLoop (15 / 2) 25 1975 26 (190734863281250000000000000000000000000 / 230419651059053036138809104234822441) (7173460418320609028888309034940957798591 / 230419651059053036138809104234822441) = seriesLoop (15 / 2) 25 1974 27 (9536743164062500000000000000000000000000 / 15438116620956553421300209983733103547) (37704507014734100379655131180080320961969 / 1187547432381273340100016152594854119) :=
    seriesLoop_step (15 / 2) 25 1974 26 (190734863281250000000000000000000000000 / 230419651059053036138809104234822441) (7173460418320609028888309034940957798591 / 230419651059053036138809104234822441) (9536743164062500000000000000000000000000 / 15438116620956553421300209983733103547) (37704507014734100379655131180080320961969 / 1187547432381273340100016152594854119) (tol_lt_abs_of_pos _ (by norm_num [tol])) (by norm_num) (by norm_num) (by norm_num) (by norm_num)
  have e26 : seriesLoop (15 / 2) 25 1974 27 (9536743164062500000000000000000000000000 / 15438116620956553421300209983733103547) (37704507014734100379655131180080320961969 / 1187547432381273340100016152594854119) = seriesLoop (15 / 2) 25 1973 28 (476837158203125000000000000000000000000000 / 1065230046846002186069714488877584144743) (34297779950419613040550652668532047902886193 / 1065230046846002186069714488877584144743) :=
    seriesLoop_step (15 / 2) 25 1973 27 (9536743164062500000000000000000000000000 / 15438116620956553421300209983733103547) (37704507014734100379655131180080320961969 / 1187547432381273340100016152594854119) (476837158203125000000000000000000000000000 / 1065230046846002186069714488877584144743) (34297779950419613040550652668532047902886193 / 1065230046846002186069714488877584144743) (tol_lt_abs_of_pos _ (by norm_num [tol])) (by norm_num) (by norm_num) (by norm_num) (by norm_num)
  have e27 : seriesLoop (15 / 2) 25 1973 28 (476837158203125000000000000000000000000000 / 1065230046846002186069714488877584144743) (34297779950419613040550652668532047902886193 / 1065230046846002186069714488877584144743) = seriesLoop (15 / 2) 25 1972 29 (23841857910156250000000000000000000000000000 / 75631333326066155210949728710308474276753) (2458984234389948775879096339465775401104919703 / 75631333326066155210949728710308474276753) :=
    seriesLoop_step (15 / 2) 25 1972 28 (476837158203125000000000000000000000000000 / 1065230046846002186069714488877584144743) (34297779950419613040550652668532047902886193 / 1065230046846002186069714488877584144743) (23841857910156250000000000000000000000000000 / 75631333326066155210949728710308474276753) (2458984234389948775879096339465775401104919703 / 75631333326066155210949728710308474276753) (tol_lt_abs_of_pos _ (by norm_num [tol])) (by norm_num) (by norm_num) (by norm_num) (by norm_num)
  have e28 : seriesLoop (15 / 2) 25 1972 29 (23841857910156250000000000000000000000000000 / 75631333326066155210949728710308474276753) (2458984234389948775879096339465775401104919703 / 75631333326066155210949728710308474276753) = seriesLoop (15 / 2) 25 1971 30 (1192092895507812500000000000000000000000000000 / 5521087332802829330399330195852518622202969) (180697942005974073139174032781001604280659138319 / 5521087332802829330399330195852518622202969) :=
    seriesLoop_step (15 / 2) 25 1971 29 (23841857910156250000000000000000000000000000 / 75631333326066155210949728710308474276753) (2458984234389948775879096339465775401104919703 / 75631333326066155210949728710308474276753) (1192092895507812500000000000000000000000000000 / 5521087332802829330399330195852518622202969) (180697942005974073139174032781001604280659138319 / 5521087332802829330399330195852518622202969) (tol_lt_abs_of_pos _ (by norm_num [tol])) (by norm_num) (by norm_num) (by norm_num) (by norm_num)
  have e29 : seriesLoop (15 / 2) 25 1971 30 (1192092895507812500000000000000000000000000000 / 5521087332802829330399330195852518622202969) (180697942005974073139174032781001604280659138319 / 5521087332802829330399330195852518622202969) = seriesLoop (15 / 2) 25 1970 31 (2384185791015625000000000000000000000000000000 / 16563261998408487991197990587557555866608907) (1207268318866824488730647668166307789006601807 / 36725636360107512175605300637599902143257) :=
    seriesLoop_step (15 / 2) 25 1970 30 (1192092895507812500000000000000000000000000000 / 5521087332802829330399330195852518622202969) (180697942005974073139174032781001604280659138319 / 5521087332802829330399330195852518622202969) (2384185791015625000000000000000000000000000000 / 16563261998408487991197990587557555866608907) (1207268318866824488730647668166307789006601807 / 36725636360107512175605300637599902143257) (tol_lt_abs_of_pos _ (by norm_num [tol])) (by norm_num) (by norm_num) (by norm_num) (by norm_num)
  have e30 : seriesLoop (15 / 2) 25 1970 31 (2384185791015625000000000000000000000000000000 / 16563261998408487991197990587557555866608907) (1207268318866824488730647668166307789006601807 / 36725636360107512175605300637599902143257) = seriesLoop (15 / 2) 25 1969 32 (119209289550781250000000000000000000000000000000 / 1275371173877453575322245275241931801728885839) (42044016198838995270149201572411370588832260951689 / 1275371173877453575322245275241931801728885839) :=
    seriesLoop_step (15 / 2) 25 1969 31 (2384185791015625000000000000000000000000000000 / 16563261998408487991197990587557555866608907) (1207268318866824488730647668166307789006601807 / 36725636360107512175605300637599902143257) (119209289550781250000000000000000000000000000000 / 1275371173877453575322245275241931801728885839) (42044016198838995270149201572411370588832260951689 / 1275371173877453575322245275241931801728885839) (tol_lt_abs_of_pos _ (by norm_num [tol])) (by norm_num) (by norm_num) (by norm_num) (by norm_num)
  have e31 : seriesLoop (15 / 2) 25 1969 32 (119209289550781250000000000000000000000000000000 / 1275371173877453575322245275241931801728885839) (42044016198838995270149201572411370588832260951689 / 1275371173877453575322245275241931801728885839) = seriesLoop (15 / 2) 25 1968 33 (5960464477539062500000000000000000000000000000000 / 100754322736318832450457376744112612336581981281) (3327437744185819688841786924220498276517748615183431 / 100754322736318832450457376744112612336581981281) :=
    seriesLoop_step (15 / 2) 25 1968 32 (119209289550781250000000000000000000000000000000 / 1275371173877453575322245275241931801728885839) (42044016198838995270149201572411370588832260951689 / 1275371173877453575322245275241931801728885839) (5960464477539062500000000000000000000000000000000 / 100754322736318832450457376744112612336581981281) (3327437744185819688841786924220498276517748615183431 / 100754322736318832450457376744112612336581981281) (tol_lt_abs_of_pos _ (by norm_num [tol])) (by norm_num) (by norm_num) (by norm_num) (by norm_num)
  have e32 : seriesLoop (15 / 2) 25 1968 33 (5960464477539062500000000000000000000000000000000 / 100754322736318832450457376744112612336581981281) (3327437744185819688841786924220498276517748615183431 / 100754322736318832450457376744112612336581981281) = seriesLoop (15 / 2) 25 1967 34 (298023223876953125000000000000000000000000000000000 / 8161100141641825428487047516273121599263140483761) (560957339922927958256101332353140042407354756403031 / 16966944161417516483341055127386947191815260881) :=
    seriesLoop_step (15 / 2) 25 1967 33 (5960464477539062500000000000000000000000000000000 / 100754322736318832450457376744112612336581981281) (3327437744185819688841786924220498276517748615183431 / 100754322736318832450457376744112612336581981281) (298023223876953125000000000000000000000000000000000 / 8161100141641825428487047516273121599263140483761) (560957339922927958256101332353140042407354756403031 / 16966944161417516483341055127386947191815260881) (tol_lt_abs_of_pos _ (by norm_num [tol])) (by norm_num) (by norm_num) (by norm_num) (by norm_num)
  have e33 : seriesLoop (15 / 2) 25 1967 34 (298023223876953125000000000000000000000000000000000 / 8161100141641825428487047516273121599263140483761) (560957339922927958256101332353140042407354756403031 / 16966944161417516483341055127386947191815260881) = seriesLoop (15 / 2) 25 1966 35 (14901161193847656250000000000000000000000000000000000 / 677371311756271510564424943850669092738840660152163) (22410001042936900533708333491534409913028823939878206613 / 677371311756271510564424943850669092738840660152163) :=
    seriesLoop_step (15 / 2) 25 1966 34 (298023223876953125000000000000000000000000000000000 / 8161100141641825428487047516273121599263140483761) (560957339922927958256101332353140042407354756403031 / 16966944161417516483341055127386947191815260881) (14901161193847656250000000000000000000000000000000000 / 677371311756271510564424943850669092738840660152163) (22410001042936900533708333491534409913028823939878206613 / 677371311756271510564424943850669092738840660152163) (tol_lt_abs_of_pos _ (by norm_num [tol])) (by norm_num) (by norm_num) (by norm_num) (by norm_num)
  have e34 : seriesLoop (15 / 2) 25 1966 35 (14901161193847656250000000000000000000000000000000000 / 677371311756271510564424943850669092738840660152163) (22410001042936900533708333491534409913028823939878206613 / 677371311756271510564424943850669092738840660152163) = seriesLoop (15 / 2) 25 1965 36 (149011611938476562500000000000000000000000000000000000 / 11515312299856615679595224045461374576560291222586771) (381119029341865785635541669356084968521490006977929512421 / 11515312299856615679595224045461374576560291222586771) :=
    seriesLoop_step (15 / 2) 25 1965 35 (14901161193847656250000000000000000000000000000000000 / 677371311756271510564424943850669092738840660152163) (22410001042936900533708333491534409913028823939878206613 / 677371311756271510564424943850669092738840660152163) (149011611938476562500000000000000000000000000000000000 / 11515312299856615679595224045461374576560291222586771) (381119029341865785635541669356084968521490006977929512421 / 11515312299856615679595224045461374576560291222586771) (tol_lt_abs_of_pos _ (by norm_num [tol])) (by norm_num) (by norm_num) (by norm_num) (by norm_num)
  have e35 : seriesLoop (15 / 2) 25 1965 36 (149011611938476562500000000000000000000000000000000000 / 11515312299856615679595224045461374576560291222586771) (381119029341865785635541669356084968521490006977929512421 / 11515312299856615679595224045461374576560291222586771) = seriesLoop (15 / 2) 25 1964 37 (7450580596923828125000000000000000000000000000000000000 / 1001832170087525564124784491955139588160745336365049077) (896346111711871545362625006323767358415395421812969394071 / 27076545137500690922291472755544313193533657739595921) :=
    seriesLoop_step (15 / 2) 25 1964 36 (149011611938476562500000000000000000000000000000000000 / 11515312299856615679595224045461374576560291222586771) (381119029341865785635541669356084968521490006977929512421 / 11515312299856615679595224045461374576560291222586771) (7450580596923828125000000000000000000000000000000000000 / 1001832170087525564124784491955139588160745336365049077) (896346111711871545362625006323767358415395421812969394071 / 27076545137500690922291472755544313193533657739595921) (tol_lt_abs_of_pos _ (by norm_num [tol])) (by norm_num) (by norm_num) (by norm_num) (by norm_num)
  have e36 : seriesLoop (15 / 2) 25 1964 37 (7450580596923828125000000000000000000000000000000000000 / 1001832170087525564124784491955139588160745336365049077) (896346111711871545362625006323767358415395421812969394071 / 27076545137500690922291472755544313193533657739595921) = seriesLoop (15 / 2) 25 1963 38 (372529029846191406250000000000000000000000000000000000000 / 89163063137789775207105819784007423346306334936489367853) (2952040274897039190285374145824165911261897124030108214675803 / 89163063137789775207105819784007423346306334936489367853) :=
    seriesLoop_step (15 / 2) 25 1963 37 (7450580596923828125000000000000000000000000000000000000 / 1001832170087525564124784491955139588160745336365049077) (896346111711871545362625006323767358415395421812969394071 / 27076545137500690922291472755544313193533657739595921) (372529029846191406250000000000000000000000000000000000000 / 89163063137789775207105819784007423346306334936489367853) (2952040274897039190285374145824165911261897124030108214675803 / 89163063137789775207105819784007423346306334936489367853) (tol_lt_abs_of_pos _ (by norm_num [tol])) (by norm_num) (by norm_num) (by norm_num) (by norm_num)
  have e37 : seriesLoop (15 / 2) 25 1963 38 (372529029846191406250000000000000000000000000000000000000 / 89163063137789775207105819784007423346306334936489367853) (2952040274897039190285374145824165911261897124030108214675803 / 89163063137789775207105819784007423346306334936489367853) = seriesLoop (15 / 2) 25 1962 39 (18626451492309570312500000000000000000000000000000000000000 / 8113838745538869543846629600344675524513876479220532474623) (268654291467122875886281547269999097924832638286739847535498073 / 8113838745538869543846629600344675524513876479220532474623) :=
    seriesLoop_step (15 / 2) 25 1962 38 (372529029846191406250000000000000000000000000000000000000 / 89163063137789775207105819784007423346306334936489367853) (2952040274897039190285374145824165911261897124030108214675803 / 89163063137789775207105819784007423346306334936489367853) (18626451492309570312500000000000000000000000000000000000000 / 8113838745538869543846629600344675524513876479220532474623) (268654291467122875886281547269999097924832638286739847535498073 / 8113838745538869543846629600344675524513876479220532474623) (tol_lt_abs_of_pos _ (by norm_num [tol])) (by norm_num) (by norm_num) (by norm_num) (by norm_num)
  have e38 : seriesLoop (15 / 2) 25 1962 39 (18626451492309570312500000000000000000000000000000000000000 / 8113838745538869543846629600344675524513876479220532474623) (268654291467122875886281547269999097924832638286739847535498073 / 8113838745538869543846629600344675524513876479220532474623) = seriesLoop (15 / 2) 25 1961 40 (931322574615478515625000000000000000000000000000000000000000 / 754587003335114867577736552832054823779790512567509520139939) (1921983109924387918149216068931532008231495027743600447753947753 / 58045154102701143659825888679388832598445424043654578472303) :=
    seriesLoop_step (15 / 2) 25 1961 39 (18626451492309570312500000000000000000000000000000000000000 / 8113838745538869543846629600344675524513876479220532474623) (268654291467122875886281547269999097924832638286739847535498073 / 8113838745538869543846629600344675524513876479220532474623) (931322574615478515625000000000000000000000000000000000000000 / 754587003335114867577736552832054823779790512567509520139939) (1921983109924387918149216068931532008231495027743600447753947753 / 58045154102701143659825888679388832598445424043654578472303) (tol_lt_abs_of_pos _ (by norm_num [tol])) (by norm_num) (by norm_num) (by norm_num) (by norm_num)
  have e39 : seriesLoop (15 / 2) 25 1961 40 (931322574615478515625000000000000000000000000000000000000000 / 754587003335114867577736552832054823779790512567509520139939) (1921983109924387918149216068931532008231495027743600447753947753 / 58045154102701143659825888679388832598445424043654578472303) = seriesLoop (15 / 2) 25 1960 41 (9313225746154785156250000000000000000000000000000000000000000 / 14337153063367182483976994503809041651816019738782680882658841) (27925831845709998268706624648593435649010545403098194740895593823 / 843361944903951910822176147282884803048001161104863581332873) :=
    seriesLoop_step (15 / 2) 25 1960 40 (931322574615478515625000000000000000000000000000000000000000 / 754587003335114867577736552832054823779790512567509520139939) (1921983109924387918149216068931532008231495027743600447753947753 / 58045154102701143659825888679388832598445424043654578472303) (9313225746154785156250000000000000000000000000000000000000000 / 14337153063367182483976994503809041651816019738782680882658841) (27925831845709998268706624648593435649010545403098194740895593823 / 843361944903951910822176147282884803048001161104863581332873) (tol_lt_abs_of_pos _ (by norm_num [tol])) (by norm_num) (by norm_num) (by norm_num) (by norm_num)
  have e40 : seriesLoop (15 / 2) 25 1960 41 (9313225746154785156250000000000000000000000000000000000000000 / 14337153063367182483976994503809041651816019738782680882658841) (27925831845709998268706624648593435649010545403098194740895593823 / 843361944903951910822176147282884803048001161104863581332873) = seriesLoop (15 / 2) 25 1959 42 (465661287307739257812500000000000000000000000000000000000000000 / 1390703847146616700945768466869477040226153914661920045617907577) (78988271654996732220163012942591038396601010925744293529565753369 / 2385426839016495198877818982623459760250692821032452908435519) :=
    seriesLoop_step (15 / 2) 25 1959 41 (9313225746154785156250000000000000000000000000000000000000000 / 14337153063367182483976994503809041651816019738782680882658841) (27925831845709998268706624648593435649010545403098194740895593823 / 843361944903951910822176147282884803048001161104863581332873) (465661287307739257812500000000000000000000000000000000000000000 / 1390703847146616700945768466869477040226153914661920045617907577) (78988271654996732220163012942591038396601010925744293529565753369 / 2385426839016495198877818982623459760250692821032452908435519) (tol_lt_abs_of_pos _ (by norm_num [tol])) (by norm_num) (by norm_num) (by norm_num) (by norm_num)
  have e41 : seriesLoop (15 / 2) 25 1959 42 (465661287307739257812500000000000000000000000000000000000000000 / 1390703847146616700945768466869477040226153914661920045617907577) (78988271654996732220163012942591038396601010925744293529565753369 / 2385426839016495198877818982623459760250692821032452908435519) = seriesLoop (15 / 2) 25 1958 43 (23283064365386962890625000000000000000000000000000000000000000000 / 137679680867515053393631078220078226982389237551530084516172850123) (4558989358175811780514039243007526963136620547601183389645946587198573 / 137679680867515053393631078220078226982389237551530084516172850123) :=
    seriesLoop_step (15 / 2) 25 1958 42 (465661287307739257812500000000000000000000000000000000000000000 / 1390703847146616700945768466869477040226153914661920045617907577) (78988271654996732220163012942591038396601010925744293529565753369 / 2385426839016495198877818982623459760250692821032452908435519) (23283064365386962890625000000000000000000000000000000000000000000 / 137679680867515053393631078220078226982389237551530084516172850123) (4558989358175811780514039243007526963136620547601183389645946587198573 / 137679680867515053393631078220078226982389237551530084516172850123) (tol_lt_abs_of_pos _ (by norm_num [tol])) (by norm_num) (by norm_num) (by norm_num) (by norm_num)
  have e42 : seriesLoop (15 / 2) 25 1958 43 (23283064365386962890625000000000000000000000000000000000000000000 / 137679680867515053393631078220078226982389237551530084516172850123) (4558989358175811780514039243007526963136620547601183389645946587198573 / 137679680867515053393631078220078226982389237551530084516172850123) = seriesLoop (15 / 2) 25 1957 44 (1164153218269348144531250000000000000000000000000000000000000000000 / 13905647767619020392756738900227900925221312992704538536133457862423) (14853519010612105134840725638508394299251570171216758785620664687324383 / 448569282826420012669572222587996804039397193313049630197853479433) :=
    seriesLoop_step (15 / 2) 25 1957 43 (23283064365386962890625000000000000000000000000000000000000000000 / 137679680867515053393631078220078226982389237551530084516172850123) (4558989358175811780514039243007526963136620547601183389645946587198573 / 137679680867515053393631078220078226982389237551530084516172850123) (1164153218269348144531250000000000000000000000000000000000000000000 / 13905647767619020392756738900227900925221312992704538536133457862423) (14853519010612105134840725638508394299251570171216758785620664687324383 / 448569282826420012669572222587996804039397193313049630197853479433) (tol_lt_abs_of_pos _ (by norm_num [tol])) (by norm_num) (by norm_num) (by norm_num) (by norm_num)
  have e43 : seriesLoop (15 / 2) 25 1957 44 (1164153218269348144531250000000000000000000000000000000000000000000 / 13905647767619020392756738900227900925221312992704538536133457862423) (14853519010612105134840725638508394299251570171216758785620664687324383 / 448569282826420012669572222587996804039397193313049630197853479433) = seriesLoop (15 / 2) 25 1956 45 (58207660913467407226562500000000000000000000000000000000000000000000 / 1432281720064759100453944106723473795297795238248567469221746159829569) (47427344408545365162953663526257302997510263556695110802486782346626754919 / 1432281720064759100453944106723473795297795238248567469221746159829569) :=
    seriesLoop_step (15 / 2) 25 1956 44 (1164153218269348144531250000000000000000000000000000000000000000000 / 13905647767619020392756738900227900925221312992704538536133457862423) (14853519010612105134840725638508394299251570171216758785620664687324383 / 448569282826420012669572222587996804039397193313049630197853479433) (58207660913467407226562500000000000000000000000000000000000000000000 / 1432281720064759100453944106723473795297795238248567469221746159829569) (47427344408545365162953663526257302997510263556695110802486782346626754919 / 1432281720064759100453944106723473795297795238248567469221746159829569) (tol_lt_abs_of_pos _ (by norm_num [tol])) (by norm_num) (by norm_num) (by norm_num) (by norm_num)
  have e44 : seriesLoop (15 / 2) 25 1956 45 (58207660913467407226562500000000000000000000000000000000000000000000 / 1432281720064759100453944106723473795297795238248567469221746159829569) (47427344408545365162953663526257302997510263556695110802486782346626754919 / 1432281720064759100453944106723473795297795238248567469221746159829569) = seriesLoop (15 / 2) 25 1955 46 (582076609134674072265625000000000000000000000000000000000000000000000 / 30077916121359941109532826241192949701253700003219916853656669356420949) (32128219827614896874067716118593656869281146280341849253297497718682640429 / 970255358753546487404284717457837087137216129136126350117957076013579) :=
    seriesLoop_step (15 / 2) 25 1955 45 (58207660913467407226562500000000000000000000000000000000000000000000 / 1432281720064759100453944106723473795297795238248567469221746159829569) (47427344408545365162953663526257302997510263556695110802486782346626754919 / 1432281720064759100453944106723473795297795238248567469221746159829569) (582076609134674072265625000000000000000000000000000000000000000000000 / 30077916121359941109532826241192949701253700003219916853656669356420949) (32128219827614896874067716118593656869281146280341849253297497718682640429 / 970255358753546487404284717457837087137216129136126350117957076013579) (tol_lt_abs_of_pos _ (by norm_num [tol])) (by norm_num) (by norm_num) (by norm_num) (by norm_num)
  have e45 : seriesLoop (15 / 2) 25 1955 46 (582076609134674072265625000000000000000000000000000000000000000000000 / 30077916121359941109532826241192949701253700003219916853656669356420949) (32128219827614896874067716118593656869281146280341849253297497718682640429 / 970255358753546487404284717457837087137216129136126350117957076013579) = seriesLoop (15 / 2) 25 1954 47 (29103830456733703613281250000000000000000000000000000000000000000000000 / 3218337024985513698720012407807645618034145900344531103341263621137041543) (8197641097848389974229709818971166141185043247068762613322138456374639869461 / 247564386537347207593847108292895816771857376949579315641635663164387811) :=
    seriesLoop_step (15 / 2) 25 1954 46 (582076609134674072265625000000000000000000000000000000000000000000000 / 30077916121359941109532826241192949701253700003219916853656669356420949) (32128219827614896874067716118593656869281146280341849253297497718682640429 / 970255358753546487404284717457837087137216129136126350117957076013579) (29103830456733703613281250000000000000000000000000000000000000000000000 / 3218337024985513698720012407807645618034145900344531103341263621137041543) (8197641097848389974229709818971166141185043247068762613322138456374639869461 / 247564386537347207593847108292895816771857376949579315641635663164387811) (tol_lt_abs_of_pos _ (by norm_num [tol])) (by norm_num) (by norm_num) (by norm_num) (by norm_num)
  have e46 : seriesLoop (15 / 2) 25 1954 47 (29103830456733703613281250000000000000000000000000000000000000000000000 / 3218337024985513698720012407807645618034145900344531103341263621137041543) (8197641097848389974229709818971166141185043247068762613322138456374639869461 / 247564386537347207593847108292895816771857376949579315641635663164387811) = seriesLoop (15 / 2) 25 1953 48 (1455191522836685180664062500000000000000000000000000000000000000000000000 / 350798735723420993160481352451033372365721903137553890264197734703937528187) (11616058890842691430168679477544642422059206281096436623077470192682864695026237 / 350798735723420993160481352451033372365721903137553890264197734703937528187) :=
    seriesLoop_step (15 / 2) 25 1953 47 (29103830456733703613281250000000000000000000000000000000000000000000000 / 3218337024985513698720012407807645618034145900344531103341263621137041543) (8197641097848389974229709818971166141185043247068762613322138456374639869461 / 247564386537347207593847108292895816771857376949579315641635663164387811) (1455191522836685180664062500000000000000000000000000000000000000000000000 / 350798735723420993160481352451033372365721903137553890264197734703937528187) (11616058890842691430168679477544642422059206281096436623077470192682864695026237 / 350798735723420993160481352451033372365721903137553890264197734703937528187) (tol_lt_abs_of_pos _ (by norm_num [tol])) (by norm_num) (by norm_num) (by norm_num) (by norm_num)
  have e47 : seriesLoop (15 / 2) 25 1953 48 (1455191522836685180664062500000000000000000000000000000000000000000000000 / 350798735723420993160481352451033372365721903137553890264197734703937528187) (11616058890842691430168679477544642422059206281096436623077470192682864695026237 / 350798735723420993160481352451033372365721903137553890264197734703937528187) = seriesLoop (15 / 2) 25 1952 49 (72759576141834259033203125000000000000000000000000000000000000000000000000 / 38938659665299730240813430122064704332595131248268481819325948552137065628757) (1289382609643114890582982455210580308848571897201704465161599191387797981147912307 / 38938659665299730240813430122064704332595131248268481819325948552137065628757) :=
    seriesLoop_step (15 / 2) 25 1952 48 (1455191522836685180664062500000000000000000000000000000000000000000000000 / 350798735723420993160481352451033372365721903137553890264197734703937528187) (11616058890842691430168679477544642422059206281096436623077470192682864695026237 / 350798735723420993160481352451033372365721903137553890264197734703937528187) (72759576141834259033203125000000000000000000000000000000000000000000000000 / 38938659665299730240813430122064704332595131248268481819325948552137065628757) (1289382609643114890582982455210580308848571897201704465161599191387797981147912307 / 38938659665299730240813430122064704332595131248268481819325948552137065628757) (tol_lt_abs_of_pos _ (by norm_num [tol])) (by norm_num) (by norm_num) (by norm_num) (by norm_num)
  have e48 : seriesLoop (15 / 2) 25 1952 49 (72759576141834259033203125000000000000000000000000000000000000000000000000 / 38938659665299730240813430122064704332595131248268481819325948552137065628757) (1289382609643114890582982455210580308848571897201704465161599191387797981147912307 / 38938659665299730240813430122064704332595131248268481819325948552137065628757) = seriesLoop (15 / 2) 25 1951 50 (3637978807091712951660156250000000000000000000000000000000000000000000000000 / 4400068542178869517211917603793311589583249831054338445583832186391488416049541) (145700238527650789727589969098951824899888624383792604563260708626821171869714090691 / 4400068542178869517211917603793311589583249831054338445583832186391488416049541) :=
    seriesLoop_step (15 / 2) 25 1951 49 (72759576141834259033203125000000000000000000000000000000000000000000000000 / 38938659665299730240813430122064704332595131248268481819325948552137065628757) (1289382609643114890582982455210580308848571897201704465161599191387797981147912307 / 38938659665299730240813430122064704332595131248268481819325948552137065628757) (3637978807091712951660156250000000000000000000000000000000000000000000000000 / 4400068542178869517211917603793311589583249831054338445583832186391488416049541) (145700238527650789727589969098951824899888624383792604563260708626821171869714090691 / 4400068542178869517211917603793311589583249831054338445583832186391488416049541) (tol_lt_abs_of_pos _ (by norm_num [tol])) (by norm_num) (by norm_num) (by norm_num) (by norm_num)
  have e49 : seriesLoop (15 / 2) 25 1951 50 (3637978807091712951660156250000000000000000000000000000000000000000000000000 / 4400068542178869517211917603793311589583249831054338445583832186391488416049541) (145700238527650789727589969098951824899888624383792604563260708626821171869714090691 / 4400068542178869517211917603793311589583249831054338445583832186391488416049541) = seriesLoop (15 / 2) 25 1950 51 (36379788070917129516601562500000000000000000000000000000000000000000000000000 / 101201576470113998895874104887246166560414746114249784248428140287004233569139443) (3351105522515756234651698805877454472697438360827229904954996298416886953003424085893 / 101201576470113998895874104887246166560414746114249784248428140287004233569139443) :=
    seriesLoop_step (15 / 2) 25 1950 50 (3637978807091712951660156250000000000000000000000000000000000000000000000000 / 4400068542178869517211917603793311589583249831054338445583832186391488416049541) (145700238527650789727589969098951824899888624383792604563260708626821171869714090691 / 4400068542178869517211917603793311589583249831054338445583832186391488416049541) (36379788070917129516601562500000000000000000000000000000000000000000000000000 / 101201576470113998895874104887246166560414746114249784248428140287004233569139443) (3351105522515756234651698805877454472697438360827229904954996298416886953003424085893 / 101201576470113998895874104887246166560414746114249784248428140287004233569139443) (tol_lt_abs_of_pos _ (by norm_num [tol])) (by norm_num) (by norm_num) (by norm_num) (by norm_num)
  have e50 : seriesLoop (15 / 2) 25 1950 51 (36379788070917129516601562500000000000000000000000000000000000000000000000000 / 101201576470113998895874104887246166560414746114249784248428140287004233569139443) (3351105522515756234651698805877454472697438360827229904954996298416886953003424085893 / 101201576470113998895874104887246166560414746114249784248428140287004233569139443) = seriesLoop (15 / 2) 25 1949 52 (1818989403545856475830078125000000000000000000000000000000000000000000000000000 / 11840584447003337870817270271807801487568525295367224757066092413579495327589314831) (9562910925691045926831835027261958495258543615043558509261818705238433500034161415841 / 288794742609837509044323665166043938721183543789444506269904693014134032380227191) :=
    seriesLoop_step (15 / 2) 25 1949 51 (36379788070917129516601562500000000000000000000000000000000000000000000000000 / 101201576470113998895874104887246166560414746114249784248428140287004233569139443) (3351105522515756234651698805877454472697438360827229904954996298416886953003424085893 / 101201576470113998895874104887246166560414746114249784248428140287004233569139443) (1818989403545856475830078125000000000000000000000000000000000000000000000000000 / 11840584447003337870817270271807801487568525295367224757066092413579495327589314831) (9562910925691045926831835027261958495258543615043558509261818705238433500034161415841 / 288794742609837509044323665166043938721183543789444506269904693014134032380227191) (tol_lt_abs_of_pos _ (by norm_num [tol])) (by norm_num) (by norm_num) (by norm_num) (by norm_num)
  have e51 : seriesLoop (15 / 2) 25 1949 52 (1818989403545856475830078125000000000000000000000000000000000000000000000000000 / 11840584447003337870817270271807801487568525295367224757066092413579495327589314831) (9562910925691045926831835027261958495258543615043558509261818705238433500034161415841 / 288794742609837509044323665166043938721183543789444506269904693014134032380227191) = seriesLoop (15 / 2) 25 1948 53 (90949470177292823791503906250000000000000000000000000000000000000000000000000000 / 1409029549193397206627255162345128377020654510148699746090864997215959943983128464889) (326275821660112470309827600625979033205359680404178475291527366873135084242424290544673 / 9853353490862917528861924212203694944200381189851047175460594386125594013868031223) :=
    seriesLoop_step (15 / 2) 25 1948 52 (1818989403545856475830078125000000000000000000000000000000000000000000000000000 / 11840584447003337870817270271807801487568525295367224757066092413579495327589314831) (9562910925691045926831835027261958495258543615043558509261818705238433500034161415841 / 288794742609837509044323665166043938721183543789444506269904693014134032380227191) (90949470177292823791503906250000000000000000000000000000000000000000000000000000 / 1409029549193397206627255162345128377020654510148699746090864997215959943983128464889) (326275821660112470309827600625979033205359680404178475291527366873135084242424290544673 / 9853353490862917528861924212203694944200381189851047175460594386125594013868031223) (tol_lt_abs_of_pos _ (by norm_num [tol])) (by norm_num) (by norm_num) (by norm_num) (by norm_num)
  have e52 : seriesLoop (15 / 2) 25 1948 53 (90949470177292823791503906250000000000000000000000000000000000000000000000000000 / 1409029549193397206627255162345128377020654510148699746090864997215959943983128464889) (326275821660112470309827600625979033205359680404178475291527366873135084242424290544673 / 9853353490862917528861924212203694944200381189851047175460594386125594013868031223) = seriesLoop (15 / 2) 25 1947 54 (4547473508864641189575195312500000000000000000000000000000000000000000000000000000 / 170492575452401062001897874643760533619499195727992669276994664663131153221958544251569) (131291873179823246107804375888523500559356710465895352510913907651298985177829476727778533 / 3964943615172117720974369177761872874872074319255643471558015457282119842371128936083) :=
    seriesLoop_step (15 / 2) 25 1947 53 (90949470177292823791503906250000000000000000000000000000000000000000000000000000 / 1409029549193397206627255162345128377020654510148699746090864997215959943983128464889) (326275821660112470309827600625979033205359680404178475291527366873135084242424290544673 / 9853353490862917528861924212203694944200381189851047175460594386125594013868031223) (4547473508864641189575195312500000000000000000000000000000000000000000000000000000 / 170492575452401062001897874643760533619499195727992669276994664663131153221958544251569) (131291873179823246107804375888523500559356710465895352510913907651298985177829476727778533 / 3964943615172117720974369177761872874872074319255643471558015457282119842371128936083) (tol_lt_abs_of_pos _ (by norm_num [tol])) (by norm_num) (by norm_num) (by norm_num) (by norm_num)
  have e53 : seriesLoop (15 / 2) 25 1947 54 (4547473508864641189575195312500000000000000000000000000000000000000000000000000000 / 170492575452401062001897874643760533619499195727992669276994664663131153221958544251569) (131291873179823246107804375888523500559356710465895352510913907651298985177829476727778533 / 3964943615172117720974369177761872874872074319255643471558015457282119842371128936083) = seriesLoop (15 / 2) 25 1946 55 (227373675443232059478759765625000000000000000000000000000000000000000000000000000000 / 20970586780645330626233438581182545635198401074543098321070343753565131846300900942942987) (694402717475458824107409403553160560083437641654120519430223657567720332605540102413220661037 / 20970586780645330626233438581182545635198401074543098321070343753565131846300900942942987) :=
    seriesLoop_step (15 / 2) 25 1946 54 (4547473508864641189575195312500000000000000000000000000000000000000000000000000000 / 170492575452401062001897874643760533619499195727992669276994664663131153221958544251569) (131291873179823246107804375888523500559356710465895352510913907651298985177829476727778533 / 3964943615172117720974369177761872874872074319255643471558015457282119842371128936083) (227373675443232059478759765625000000000000000000000000000000000000000000000000000000 / 20970586780645330626233438581182545635198401074543098321070343753565131846300900942942987) (694402717475458824107409403553160560083437641654120519430223657567720332605540102413220661037 / 20970586780645330626233438581182545635198401074543098321070343753565131846300900942942987) (tol_lt_abs_of_pos _ (by norm_num [tol])) (by norm_num) (by norm_num) (by norm_num) (by norm_num)
  have e54 : seriesLoop (15 / 2) 25 1946 55 (227373675443232059478759765625000000000000000000000000000000000000000000000000000000 / 20970586780645330626233438581182545635198401074543098321070343753565131846300900942942987) (694402717475458824107409403553160560083437641654120519430223657567720332605540102413220661037 / 20970586780645330626233438581182545635198401074543098321070343753565131846300900942942987) = seriesLoop (15 / 2) 25 1945 56 (90949470177292823791503906250000000000000000000000000000000000000000000000000000000 / 20970586780645330626233438581182545635198401074543098321070343753565131846300900942942987) (22400087663432525622087168624021434397852827150132919981620117986055494600178712981071634227 / 676470541311139697620433502618791794683819389501390268421623992050488124074222611062677) :=
    seriesLoop_step (15 / 2) 25 1945 55 (227373675443232059478759765625000000000000000000000000000000000000000000000000000000 / 20970586780645330626233438581182545635198401074543098321070343753565131846300900942942987) (694402717475458824107409403553160560083437641654120519430223657567720332605540102413220661037 / 20970586780645330626233438581182545635198401074543098321070343753565131846300900942942987) (90949470177292823791503906250000000000000000000000000000000000000000000000000000000 / 20970586780645330626233438581182545635198401074543098321070343753565131846300900942942987) (22400087663432525622087168624021434397852827150132919981620117986055494600178712981071634227 / 676470541311139697620433502618791794683819389501390268421623992050488124074222611062677) (tol_lt_abs_of_pos _ (by norm_num [tol])) (by norm_num) (by norm_num) (by norm_num) (by norm_num)
  have e55 : seriesLoop (15 / 2) 25 1945 56 (90949470177292823791503906250000000000000000000000000000000000000000000000000000000 / 20970586780645330626233438581182545635198401074543098321070343753565131846300900942942987) (22400087663432525622087168624021434397852827150132919981620117986055494600178712981071634227 / 676470541311139697620433502618791794683819389501390268421623992050488124074222611062677) = seriesLoop (15 / 2) 25 1944 57 (4547473508864641189575195312500000000000000000000000000000000000000000000000000000000 / 2663264521141956989531646699810183295670196936466973486775933656702771744480214419753759349) (2050910351987937834488879629356920524112711174187751301572986151420941447462874255964628463993 / 61936384212603650919340620925818216178376672941092406669207759458203994057679405110552543) :=
    seriesLoop_step (15 / 2) 25 1944 56 (90949470177292823791503906250000000000000000000000000000000000000000000000000000000 / 20970586780645330626233438581182545635198401074543098321070343753565131846300900942942987) (22400087663432525622087168624021434397852827150132919981620117986055494600178712981071634227 / 676470541311139697620433502618791794683819389501390268421623992050488124074222611062677) (4547473508864641189575195312500000000000000000000000000000000000000000000000000000000 / 2663264521141956989531646699810183295670196936466973486775933656702771744480214419753759349) (2050910351987937834488879629356920524112711174187751301572986151420941447462874255964628463993 / 61936384212603650919340620925818216178376672941092406669207759458203994057679405110552543) (tol_lt_abs_of_pos _ (by norm_num [tol])) (by norm_num) (by norm_num) (by norm_num) (by norm_num)
  have e56 : seriesLoop (15 / 2) 25 1944 57 (4547473508864641189575195312500000000000000000000000000000000000000000000000000000000 / 2663264521141956989531646699810183295670196936466973486775933656702771744480214419753759349) (2050910351987937834488879629356920524112711174187751301572986151420941447462874255964628463993 / 61936384212603650919340620925818216178376672941092406669207759458203994057679405110552543) = seriesLoop (15 / 2) 25 1943 58 (227373675443232059478759765625000000000000000000000000000000000000000000000000000000000 / 343561123227312451649582424275513645141455404804239579794095441714657555037947660148234956021) (669199983688497931961943962560093994875188757836438615872079657760703659357444911637399652339363 / 20209477836900732449975436722089037949497376753190563517299731865568091472820450596954997413) :=
    seriesLoop_step (15 / 2) 25 1943 57 (4547473508864641189575195312500000000000000000000000000000000000000000000000000000000 / 2663264521141956989531646699810183295670196936466973486775933656702771744480214419753759349) (2050910351987937834488879629356920524112711174187751301572986151420941447462874255964628463993 / 61936384212603650919340620925818216178376672941092406669207759458203994057679405110552543) (227373675443232059478759765625000000000000000000000000000000000000000000000000000000000 / 343561123227312451649582424275513645141455404804239579794095441714657555037947660148234956021) (669199983688497931961943962560093994875188757836438615872079657760703659357444911637399652339363 / 20209477836900732449975436722089037949497376753190563517299731865568091472820450596954997413) (tol_lt_abs_of_pos _ (by norm_num [tol])) (by norm_num) (by norm_num) (by norm_num) (by norm_num)
  have e57 : seriesLoop (15 / 2) 25 1943 58 (227373675443232059478759765625000000000000000000000000000000000000000000000000000000000 / 343561123227312451649582424275513645141455404804239579794095441714657555037947660148234956021) (669199983688497931961943962560093994875188757836438615872079657760703659357444911637399652339363 / 20209477836900732449975436722089037949497376753190563517299731865568091472820450596954997413) = seriesLoop (15 / 2) 25 1942 59 (11368683772161602973937988281250000000000000000000000000000000000000000000000000000000000 / 45006507142777931166095297580092287513530658029355384953026502864620139709971143479418779238751) (1490308363685653578251410807595267314868295363701748797547121397833087049389029818216489025759761401 / 45006507142777931166095297580092287513530658029355384953026502864620139709971143479418779238751) :=
    seriesLoop_step (15 / 2) 25 1942 58 (227373675443232059478759765625000000000000000000000000000000000000000000000000000000000 / 343561123227312451649582424275513645141455404804239579794095441714657555037947660148234956021) (669199983688497931961943962560093994875188757836438615872079657760703659357444911637399652339363 / 20209477836900732449975436722089037949497376753190563517299731865568091472820450596954997413) (11368683772161602973937988281250000000000000000000000000000000000000000000000000000000000 / 45006507142777931166095297580092287513530658029355384953026502864620139709971143479418779238751) (1490308363685653578251410807595267314868295363701748797547121397833087049389029818216489025759761401 / 45006507142777931166095297580092287513530658029355384953026502864620139709971143479418779238751) (tol_lt_abs_of_pos _ (by norm_num [tol])) (by norm_num) (by norm_num) (by norm_num) (by norm_num)
  have e58 : seriesLoop (15 / 2) 25 1942 59 (11368683772161602973937988281250000000000000000000000000000000000000000000000000000000000 / 45006507142777931166095297580092287513530658029355384953026502864620139709971143479418779238751) (1490308363685653578251410807595267314868295363701748797547121397833087049389029818216489025759761401 / 45006507142777931166095297580092287513530658029355384953026502864620139709971143479418779238751) = seriesLoop (15 / 2) 25 1941 60 (568434188608080148696899414062500000000000000000000000000000000000000000000000000000000000 / 5985865449989464845090674578152274239299577517904266198752524880994478581426162082762697638753883) (15247000951596950776618901350682111714734291028640968467212857377830813659133920447907156955849866641 / 460451188460728065006974967550174941484582885992635861442501913922652198571243237135592126057991) :=
    seriesLoop_step (15 / 2) 25 1941 59 (11368683772161602973937988281250000000000000000000000000000000000000000000000000000000000 / 45006507142777931166095297580092287513530658029355384953026502864620139709971143479418779238751) (1490308363685653578251410807595267314868295363701748797547121397833087049389029818216489025759761401 / 45006507142777931166095297580092287513530658029355384953026502864620139709971143479418779238751) (568434188608080148696899414062500000000000000000000000000000000000000000000000000000000000 / 5985865449989464845090674578152274239299577517904266198752524880994478581426162082762697638753883) (15247000951596950776618901350682111714734291028640968467212857377830813659133920447907156955849866641 / 460451188460728065006974967550174941484582885992635861442501913922652198571243237135592126057991) (tol_lt_abs_of_pos _ (by norm_num [tol])) (by norm_num) (by norm_num) (by norm_num) (by norm_num)
  have e59 : seriesLoop (15 / 2) 25 1941 60 (568434188608080148696899414062500000000000000000000000000000000000000000000000000000000000 / 5985865449989464845090674578152274239299577517904266198752524880994478581426162082762697638753883) (15247000951596950776618901350682111714734291028640968467212857377830813659133920447907156955849866641 / 460451188460728065006974967550174941484582885992635861442501913922652198571243237135592126057991) = seriesLoop (15 / 2) 25 1940 61 (5684341886080801486968994140625000000000000000000000000000000000000000000000000000000000000 / 161618367149715550817448213610111404461088592983415187366318171786850921698506376234592836246354841) (5351697334016214064479315175576390206012361151052979931991712939618615594356006077215412091503303190991 / 161618367149715550817448213610111404461088592983415187366318171786850921698506376234592836246354841) :=
    seriesLoop_step (15 / 2) 25 1940 60 (568434188608080148696899414062500000000000000000000000000000000000000000000000000000000000 / 5985865449989464845090674578152274239299577517904266198752524880994478581426162082762697638753883) (15247000951596950776618901350682111714734291028640968467212857377830813659133920447907156955849866641 / 460451188460728065006974967550174941484582885992635861442501913922652198571243237135592126057991) (5684341886080801486968994140625000000000000000000000000000000000000000000000000000000000000 / 161618367149715550817448213610111404461088592983415187366318171786850921698506376234592836246354841) (5351697334016214064479315175576390206012361151052979931991712939618615594356006077215412091503303190991 / 161618367149715550817448213610111404461088592983415187366318171786850921698506376234592836246354841) (tol_lt_abs_of_pos _ (by norm_num [tol])) (by norm_num) (by norm_num) (by norm_num) (by norm_num)
  have e60 : seriesLoop (15 / 2) 25 1940 61 (5684341886080801486968994140625000000000000000000000000000000000000000000000000000000000000 / 161618367149715550817448213610111404461088592983415187366318171786850921698506376234592836246354841) (5351697334016214064479315175576390206012361151052979931991712939618615594356006077215412091503303190991 / 161618367149715550817448213610111404461088592983415187366318171786850921698506376234592836246354841) = seriesLoop (15 / 2) 25 1939 62 (284217094304040074348449707031250000000000000000000000000000000000000000000000000000000000000 / 22141716299511030461990405264585262411169137238727880669185589534798576272695373544139218565750613217) (733182534760505543927970219128313907930724727694258250682864672727750336426772832578511456535952537165767 / 22141716299511030461990405264585262411169137238727880669185589534798576272695373544139218565750613217) :=
    seriesLoop_step (15 / 2) 25 1939 61 (5684341886080801486968994140625000000000000000000000000000000000000000000000000000000000000 / 161618367149715550817448213610111404461088592983415187366318171786850921698506376234592836246354841) (5351697334016214064479315175576390206012361151052979931991712939618615594356006077215412091503303190991 / 161618367149715550817448213610111404461088592983415187366318171786850921698506376234592836246354841) (284217094304040074348449707031250000000000000000000000000000000000000000000000000000000000000 / 22141716299511030461990405264585262411169137238727880669185589534798576272695373544139218565750613217) (733182534760505543927970219128313907930724727694258250682864672727750336426772832578511456535952537165767 / 22141716299511030461990405264585262411169137238727880669185589534798576272695373544139218565750613217) (tol_lt_abs_of_pos _ (by norm_num [tol])) (by norm_num) (by norm_num) (by norm_num) (by norm_num)
  have e61 : seriesLoop (15 / 2) 25 1939 62 (284217094304040074348449707031250000000000000000000000000000000000000000000000000000000000000 / 22141716299511030461990405264585262411169137238727880669185589534798576272695373544139218565750613217) (733182534760505543927970219128313907930724727694258250682864672727750336426772832578511456535952537165767 / 22141716299511030461990405264585262411169137238727880669185589534798576272695373544139218565750613217) = seriesLoop (15 / 2) 25 1938 63 (14210854715202003717422485351562500000000000000000000000000000000000000000000000000000000000000 / 3077698565632033234216666331777351475152510076183175413016796945337002101904656922635351380639335237163) (101912372331724481460703062462553055687722299649501896844918189509157296763321423728413092458497402666041613 / 3077698565632033234216666331777351475152510076183175413016796945337002101904656922635351380639335237163) :=
    seriesLoop_step (15 / 2) 25 1938 62 (284217094304040074348449707031250000000000000000000000000000000000000000000000000000000000000 / 22141716299511030461990405264585262411169137238727880669185589534798576272695373544139218565750613217) (733182534760505543927970219128313907930724727694258250682864672727750336426772832578511456535952537165767 / 22141716299511030461990405264585262411169137238727880669185589534798576272695373544139218565750613217) (14210854715202003717422485351562500000000000000000000000000000000000000000000000000000000000000 / 3077698565632033234216666331777351475152510076183175413016796945337002101904656922635351380639335237163) (101912372331724481460703062462553055687722299649501896844918189509157296763321423728413092458497402666041613 / 3077698565632033234216666331777351475152510076183175413016796945337002101904656922635351380639335237163) (tol_lt_abs_of_pos _ (by norm_num [tol])) (by norm_num) (by norm_num) (by norm_num) (by norm_num)
  have e62 : seriesLoop (15 / 2) 25 1938 63 (14210854715202003717422485351562500000000000000000000000000000000000000000000000000000000000000 / 3077698565632033234216666331777351475152510076183175413016796945337002101904656922635351380639335237163) (101912372331724481460703062462553055687722299649501896844918189509157296763321423728413092458497402666041613 / 3077698565632033234216666331777351475152510076183175413016796945337002101904656922635351380639335237163) = seriesLoop (15 / 2) 25 1937 64 (710542735760100185871124267578125000000000000000000000000000000000000000000000000000000000000000 / 433955497754116686024549952780606557996503920741827733235368369292517296368556626091584544670146268439983) (10286073370632686062057904013891089460441247226614006768169981904646513130728933962567105251716631192492389 / 310633856660069209752720080730570191837153844482339107541423313738380312361171529056252358389510571539) :=
    seriesLoop_step (15 / 2) 25 1937 63 (14210854715202003717422485351562500000000000000000000000000000000000000000000000000000000000000 / 3077698565632033234216666331777351475152510076183175413016796945337002101904656922635351380639335237163) (101912372331724481460703062462553055687722299649501896844918189509157296763321423728413092458497402666041613 / 3077698565632033234216666331777351475152510076183175413016796945337002101904656922635351380639335237163) (710542735760100185871124267578125000000000000000000000000000000000000000000000000000000000000000 / 433955497754116686024549952780606557996503920741827733235368369292517296368556626091584544670146268439983) (10286073370632686062057904013891089460441247226614006768169981904646513130728933962567105251716631192492389 / 310633856660069209752720080730570191837153844482339107541423313738380312361171529056252358389510571539) (tol_lt_abs_of_pos _ (by norm_num [tol])) (by norm_num) (by norm_num) (by norm_num) (by norm_num)
  have e63 : seriesLoop (15 / 2) 25 1937 64 (710542735760100185871124267578125000000000000000000000000000000000000000000000000000000000000000 / 433955497754116686024549952780606557996503920741827733235368369292517296368556626091584544670146268439983) (10286073370632686062057904013891089460441247226614006768169981904646513130728933962567105251716631192492389 / 310633856660069209752720080730570191837153844482339107541423313738380312361171529056252358389510571539) = seriesLoop (15 / 2) 25 1936 65 (35527136788005009293556213378906250000000000000000000000000000000000000000000000000000000000000000 / 62055636178838686101510643247626737793500060666081365852657676808829973380703597531096589887830916386917569) (2054859163324697854440157547768330388815187305957906746084085455073138574638849866635993183240683129955397042919 / 62055636178838686101510643247626737793500060666081365852657676808829973380703597531096589887830916386917569) :=
    seriesLoop_step (15 / 2) 25 1936 64 (710542735760100185871124267578125000000000000000000000000000000000000000000000000000000000000000 / 433955497754116686024549952780606557996503920741827733235368369292517296368556626091584544670146268439983) (10286073370632686062057904013891089460441247226614006768169981904646513130728933962567105251716631192492389 / 310633856660069209752720080730570191837153844482339107541423313738380312361171529056252358389510571539) (35527136788005009293556213378906250000000000000000000000000000000000000000000000000000000000000000 / 62055636178838686101510643247626737793500060666081365852657676808829973380703597531096589887830916386917569) (2054859163324697854440157547768330388815187305957906746084085455073138574638849866635993183240683129955397042919 / 62055636178838686101510643247626737793500060666081365852657676808829973380703597531096589887830916386917569) (tol_lt_abs_of_pos _ (by norm_num [tol])) (by norm_num) (by norm_num) (by norm_num) (by norm_num)
  have e64 : seriesLoop (15 / 2) 25 1936 65 (35527136788005009293556213378906250000000000000000000000000000000000000000000000000000000000000000 / 62055636178838686101510643247626737793500060666081365852657676808829973380703597531096589887830916386917569) (2054859163324697854440157547768330388815187305957906746084085455073138574638849866635993183240683129955397042919 / 62055636178838686101510643247626737793500060666081365852657676808829973380703597531096589887830916386917569) = seriesLoop (15 / 2) 25 1935 66 (355271367880050092935562133789062500000000000000000000000000000000000000000000000000000000000000000 / 1799613449186321896943808654181175396011501759316359609727072627456069228040404328401801106747096575220609501) (42054280689073107304257197554957316046417939968439869891629130696627394964380131356699931061383070408402621203 / 1270016548473057090292031513183610018356740832262780246808096420223055206803390492873536419722721648003253) :=
    seriesLoop_step (15 / 2) 25 1935 65 (35527136788005009293556213378906250000000000000000000000000000000000000000000000000000000000000000 / 62055636178838686101510643247626737793500060666081365852657676808829973380703597531096589887830916386917569) (2054859163324697854440157547768330388815187305957906746084085455073138574638849866635993183240683129955397042919 / 62055636178838686101510643247626737793500060666081365852657676808829973380703597531096589887830916386917569) (355271367880050092935562133789062500000000000000000000000000000000000000000000000000000000000000000 / 1799613449186321896943808654181175396011501759316359609727072627456069228040404328401801106747096575220609501) (42054280689073107304257197554957316046417939968439869891629130696627394964380131356699931061383070408402621203 / 1270016548473057090292031513183610018356740832262780246808096420223055206803390492873536419722721648003253) (tol_lt_abs_of_pos _ (by norm_num [tol])) (by norm_num) (by norm_num) (by norm_num) (by norm_num)
  have e65 : seriesLoop (15 / 2) 25 1935 66 (355271367880050092935562133789062500000000000000000000000000000000000000000000000000000000000000000 / 1799613449186321896943808654181175396011501759316359609727072627456069228040404328401801106747096575220609501) (42054280689073107304257197554957316046417939968439869891629130696627394964380131356699931061383070408402621203 / 1270016548473057090292031513183610018356740832262780246808096420223055206803390492873536419722721648003253) = seriesLoop (15 / 2) 25 1934 67 (17763568394002504646778106689453125000000000000000000000000000000000000000000000000000000000000000000 / 264543177030389318850739872164632783213690758619504862629879676236042176521939436275064762691823196557429596647) (8759864613253256941937863996004700753259499930611056458556456294976789743685416981469238940155032182999857593963697 / 264543177030389318850739872164632783213690758619504862629879676236042176521939436275064762691823196557429596647) :=
    seriesLoop_step (15 / 2) 25 1934 66 (355271367880050092935562133789062500000000000000000000000000000000000000000000000000000000000000000 / 1799613449186321896943808654181175396011501759316359609727072627456069228040404328401801106747096575220609501) (42054280689073107304257197554957316046417939968439869891629130696627394964380131356699931061383070408402621203 / 1270016548473057090292031513183610018356740832262780246808096420223055206803390492873536419722721648003253) (17763568394002504646778106689453125000000000000000000000000000000000000000000000000000000000000000000 / 264543177030389318850739872164632783213690758619504862629879676236042176521939436275064762691823196557429596647) (8759864613253256941937863996004700753259499930611056458556456294976789743685416981469238940155032182999857593963697 / 264543177030389318850739872164632783213690758619504862629879676236042176521939436275064762691823196557429596647) (tol_lt_abs_of_pos _ (by norm_num [tol])) (by norm_num) (by norm_num) (by norm_num) (by norm_num)
  have e66 : seriesLoop (15 / 2) 25 1934 67 (17763568394002504646778106689453125000000000000000000000000000000000000000000000000000000000000000000 / 264543177030389318850739872164632783213690758619504862629879676236042176521939436275064762691823196557429596647) (8759864613253256941937863996004700753259499930611056458556456294976789743685416981469238940155032182999857593963697 / 264543177030389318850739872164632783213690758619504862629879676236042176521939436275064762691823196557429596647) = seriesLoop (15 / 2) 25 1933 68 (888178419700125232338905334472656250000000000000000000000000000000000000000000000000000000000000000000 / 39416933377528008508760240952530284698839923034306224531852071759170284301768976004984649641081656287057009900403) (1305219827374736172527161435529932751140999962317297412324911987951541671809127130238916602083099795266978781500590853 / 39416933377528008508760240952530284698839923034306224531852071759170284301768976004984649641081656287057009900403) :=
    seriesLoop_step (15 / 2) 25 1933 67 (17763568394002504646778106689453125000000000000000000000000000000000000000000000000000000000000000000 / 264543177030389318850739872164632783213690758619504862629879676236042176521939436275064762691823196557429596647) (8759864613253256941937863996004700753259499930611056458556456294976789743685416981469238940155032182999857593963697 / 264543177030389318850739872164632783213690758619504862629879676236042176521939436275064762691823196557429596647) (888178419700125232338905334472656250000000000000000000000000000000000000000000000000000000000000000000 / 39416933377528008508760240952530284698839923034306224531852071759170284301768976004984649641081656287057009900403) (1305219827374736172527161435529932751140999962317297412324911987951541671809127130238916602083099795266978781500590853 / 39416933377528008508760240952530284698839923034306224531852071759170284301768976004984649641081656287057009900403) (tol_lt_abs_of_pos _ (by norm_num [tol])) (by norm_num) (by norm_num) (by norm_num) (by norm_num)
  have e67 : seriesLoop (15 / 2) 25 1933 68 (888178419700125232338905334472656250000000000000000000000000000000000000000000000000000000000000000000 / 39416933377528008508760240952530284698839923034306224531852071759170284301768976004984649641081656287057009900403) (1305219827374736172527161435529932751140999962317297412324911987951541671809127130238916602083099795266978781500590853 / 39416933377528008508760240952530284698839923034306224531852071759170284301768976004984649641081656287057009900403) = seriesLoop (15 / 2) 25 1932 69 (44408920985006261616945266723632812500000000000000000000000000000000000000000000000000000000000000000000 / 5951956940006729284822796383832072989524828378180239904309662835634712929567115376752682095803330099345608494960853) (197088193933585206460522361771281462367557717942724409261061710180682792443178196666076406914548069085313796006589218803 / 5951956940006729284822796383832072989524828378180239904309662835634712929567115376752682095803330099345608494960853) :=
    seriesLoop_step (15 / 2) 25 1932 68 (888178419700125232338905334472656250000000000000000000000000000000000000000000000000000000000000000000 / 39416933377528008508760240952530284698839923034306224531852071759170284301768976004984649641081656287057009900403) (1305219827374736172527161435529932751140999962317297412324911987951541671809127130238916602083099795266978781500590853 / 39416933377528008508760240952530284698839923034306224531852071759170284301768976004984649641081656287057009900403) (44408920985006261616945266723632812500000000000000000000000000000000000000000000000000000000000000000000 / 5951956940006729284822796383832072989524828378180239904309662835634712929567115376752682095803330099345608494960853) (197088193933585206460522361771281462367557717942724409261061710180682792443178196666076406914548069085313796006589218803 / 5951956940006729284822796383832072989524828378180239904309662835634712929567115376752682095803330099345608494960853) (tol_lt_abs_of_pos _ (by norm_num [tol])) (by norm_num) (by norm_num) (by norm_num) (by norm_num)
  have e68 : seriesLoop (15 / 2) 25 1932 69 (44408920985006261616945266723632812500000000000000000000000000000000000000000000000000000000000000000000 / 5951956940006729284822796383832072989524828378180239904309662835634712929567115376752682095803330099345608494960853) (197088193933585206460522361771281462367557717942724409261061710180682792443178196666076406914548069085313796006589218803 / 5951956940006729284822796383832072989524828378180239904309662835634712929567115376752682095803330099345608494960853) = seriesLoop (15 / 2) 25 1931 70 (2220446049250313080847263336181640625000000000000000000000000000000000000000000000000000000000000000000000 / 910649411821029580577887846726307167397298741861576705359378413852111078223768652643160360657909505199878099729010509) (30154493671838538808905970601319144589499667026877459616942441657644467243806264089909690257925854570053010789008150476859 / 910649411821029580577887846726307167397298741861576705359378413852111078223768652643160360657909505199878099729010509) :=
    seriesLoop_step (15 / 2) 25 1931 69 (44408920985006261616945266723632812500000000000000000000000000000000000000000000000000000000000000000000 / 5951956940006729284822796383832072989524828378180239904309662835634712929567115376752682095803330099345608494960853) (197088193933585206460522361771281462367557717942724409261061710180682792443178196666076406914548069085313796006589218803 / 5951956940006729284822796383832072989524828378180239904309662835634712929567115376752682095803330099345608494960853) (2220446049250313080847263336181640625000000000000000000000000000000000000000000000000000000000000000000000 / 910649411821029580577887846726307167397298741861576705359378413852111078223768652643160360657909505199878099729010509) (30154493671838538808905970601319144589499667026877459616942441657644467243806264089909690257925854570053010789008150476859 / 910649411821029580577887846726307167397298741861576705359378413852111078223768652643160360657909505199878099729010509) (tol_lt_abs_of_pos _ (by norm_num [tol])) (by norm_num) (by norm_num) (by norm_num) (by norm_num)
  have e69 : seriesLoop (15 / 2) 25 1931 70 (2220446049250313080847263336181640625000000000000000000000000000000000000000000000000000000000000000000000 / 910649411821029580577887846726307167397298741861576705359378413852111078223768652643160360657909505199878099729010509) (30154493671838538808905970601319144589499667026877459616942441657644467243806264089909690257925854570053010789008150476859 / 910649411821029580577887846726307167397298741861576705359378413852111078223768652643160360657909505199878099729010509) = seriesLoop (15 / 2) 25 1930 71 (22204460492503130808472633361816406250000000000000000000000000000000000000000000000000000000000000000000000 / 28230131766451916997914523248515522189316260997708877866140730829415443424936828231937971180395194661196221091599325779) (25264575779107965548122853544433088939111433504043445895276099767215634717783626669924335080964905180314684715114936886017 / 762976534228430189132824952662581680792331378316456158544344076470687660133427790052377599470140396248546515989170967) :=
    seriesLoop_step (15 / 2) 25 1930 70 (2220446049250313080847263336181640625000000000000000000000000000000000000000000000000000000000000000000000 / 910649411821029580577887846726307167397298741861576705359378413852111078223768652643160360657909505199878099729010509) (30154493671838538808905970601319144589499667026877459616942441657644467243806264089909690257925854570053010789008150476859 / 910649411821029580577887846726307167397298741861576705359378413852111078223768652643160360657909505199878099729010509) (22204460492503130808472633361816406250000000000000000000000000000000000000000000000000000000000000000000000 / 28230131766451916997914523248515522189316260997708877866140730829415443424936828231937971180395194661196221091599325779) (25264575779107965548122853544433088939111433504043445895276099767215634717783626669924335080964905180314684715114936886017 / 762976534228430189132824952662581680792331378316456158544344076470687660133427790052377599470140396248546515989170967) (tol_lt_abs_of_pos _ (by norm_num [tol])) (by norm_num) (by norm_num) (by norm_num) (by norm_num)
  have e70 : seriesLoop (15 / 2) 25 1930 71 (22204460492503130808472633361816406250000000000000000000000000000000000000000000000000000000000000000000000 / 28230131766451916997914523248515522189316260997708877866140730829415443424936828231937971180395194661196221091599325779) (25264575779107965548122853544433088939111433504043445895276099767215634717783626669924335080964905180314684715114936886017 / 762976534228430189132824952662581680792331378316456158544344076470687660133427790052377599470140396248546515989170967) = seriesLoop (15 / 2) 25 1929 72 (1110223024625156540423631668090820312500000000000000000000000000000000000000000000000000000000000000000000000 / 4432130687332950968672580150016936983722652976640293824984094740218224617715082032414261475322045561807806711381094147303) (3579559041483857877543138557677276928559267934531919261113630818237942001844026520136352743544515468108487890490308984655433 / 108100748471535389479819028049193584968845194552202288414246213176054258968660537375957596959074281995312358814173027983) :=
    seriesLoop_step (15 / 2) 25 1929 71 (22204460492503130808472633361816406250000000000000000000000000000000000000000000000000000000000000000000000 / 28230131766451916997914523248515522189316260997708877866140730829415443424936828231937971180395194661196221091599325779) (25264575779107965548122853544433088939111433504043445895276099767215634717783626669924335080964905180314684715114936886017 / 762976534228430189132824952662581680792331378316456158544344076470687660133427790052377599470140396248546515989170967) (1110223024625156540423631668090820312500000000000000000000000000000000000000000000000000000000000000000000000 / 4432130687332950968672580150016936983722652976640293824984094740218224617715082032414261475322045561807806711381094147303) (3579559041483857877543138557677276928559267934531919261113630818237942001844026520136352743544515468108487890490308984655433 / 108100748471535389479819028049193584968845194552202288414246213176054258968660537375957596959074281995312358814173027983) (tol_lt_abs_of_pos _ (by norm_num [tol])) (by norm_num) (by norm_num) (by norm_num) (by norm_num)
  have e71 : seriesLoop (15 / 2) 25 1929 72 (1110223024625156540423631668090820312500000000000000000000000000000000000000000000000000000000000000000000000 / 4432130687332950968672580150016936983722652976640293824984094740218224617715082032414261475322045561807806711381094147303) (3579559041483857877543138557677276928559267934531919261113630818237942001844026520136352743544515468108487890490308984655433 / 108100748471535389479819028049193584968845194552202288414246213176054258968660537375957596959074281995312358814173027983) = seriesLoop (15 / 2) 25 1928 73 (55511151231257827021181583404541015625000000000000000000000000000000000000000000000000000000000000000000000000 / 704708779285939204018940243852692980411901823285806718172471063694697714216698043153867574576205244327441267109593969421177) (1795011183956405350708836268365845793727650082288815176015366100314857223847785298828375656551284333584556350623563405459135979 / 54208367637379938770687711065591767723992447945062055244036235668822901093592157165682121121246557255957020546891843801629) :=
    seriesLoop_step (15 / 2) 25 1928 72 (1110223024625156540423631668090820312500000000000000000000000000000000000000000000000000000000000000000000000 / 4432130687332950968672580150016936983722652976640293824984094740218224617715082032414261475322045561807806711381094147303) (3579559041483857877543138557677276928559267934531919261113630818237942001844026520136352743544515468108487890490308984655433 / 108100748471535389479819028049193584968845194552202288414246213176054258968660537375957596959074281995312358814173027983) (55511151231257827021181583404541015625000000000000000000000000000000000000000000000000000000000000000000000000 / 704708779285939204018940243852692980411901823285806718172471063694697714216698043153867574576205244327441267109593969421177) (1795011183956405350708836268365845793727650082288815176015366100314857223847785298828375656551284333584556350623563405459135979 / 54208367637379938770687711065591767723992447945062055244036235668822901093592157165682121121246557255957020546891843801629) (tol_lt_abs_of_pos _ (by norm_num [tol])) (by norm_num) (by norm_num) (by norm_num) (by norm_num)
  have e72 : seriesLoop (15 / 2) 25 1928 73 (55511151231257827021181583404541015625000000000000000000000000000000000000000000000000000000000000000000000000 / 704708779285939204018940243852692980411901823285806718172471063694697714216698043153867574576205244327441267109593969421177) (1795011183956405350708836268365845793727650082288815176015366100314857223847785298828375656551284333584556350623563405459135979 / 54208367637379938770687711065591767723992447945062055244036235668822901093592157165682121121246557255957020546891843801629) = seriesLoop (15 / 2) 25 1927 74 (2775557561562891351059079170227050781250000000000000000000000000000000000000000000000000000000000000000000000000 / 113458113465036211847049379260283569846316193549014881625767841254846331988888384947772679506769044336718044004644629076809497) (101539416432993416265112212736556935063001372769122728233788141836729626203065260282372709436806435410607471401489681287188421731 / 3066435499055032752622956196223880266116653879703104908804536250130981945645632025615477824507271468559947135260665650724581) :=
    seriesLoop_step (15 / 2) 25 1927 73 (55511151231257827021181583404541015625000000000000000000000000000000000000000000000000000000000000000000000000 / 704708779285939204018940243852692980411901823285806718172471063694697714216698043153867574576205244327441267109593969421177) (1795011183956405350708836268365845793727650082288815176015366100314857223847785298828375656551284333584556350623563405459135979 / 54208367637379938770687711065591767723992447945062055244036235668822901093592157165682121121246557255957020546891843801629) (2775557561562891351059079170227050781250000000000000000000000000000000000000000000000000000000000000000000000000 / 113458113465036211847049379260283569846316193549014881625767841254846331988888384947772679506769044336718044004644629076809497) (101539416432993416265112212736556935063001372769122728233788141836729626203065260282372709436806435410607471401489681287188421731 / 3066435499055032752622956196223880266116653879703104908804536250130981945645632025615477824507271468559947135260665650724581) (tol_lt_abs_of_pos _ (by norm_num [tol])) (by norm_num) (by norm_num) (by norm_num) (by norm_num)
  have e73 : seriesLoop (15 / 2) 25 1927 74 (2775557561562891351059079170227050781250000000000000000000000000000000000000000000000000000000000000000000000000 / 113458113465036211847049379260283569846316193549014881625767841254846331988888384947772679506769044336718044004644629076809497) (101539416432993416265112212736556935063001372769122728233788141836729626203065260282372709436806435410607471401489681287188421731 / 3066435499055032752622956196223880266116653879703104908804536250130981945645632025615477824507271468559947135260665650724581) = seriesLoop (15 / 2) 25 1926 75 (138777878078144567552953958511352539062500000000000000000000000000000000000000000000000000000000000000000000000000 / 18493672494800902531069048819426221884949539548489425705000158124539952114188806746486946759603354226885041172757074539519948011) (105638126704740951118452584628656105385184619230969762470325389583804791380142588366912163293665622211725661552938462626019211913 / 3190214334104002506653277353704713107633179152749599052095938955414861499773815205535095180197232055698644328576345444112463) :=
    seriesLoop_step (15 / 2) 25 1926 74 (2775557561562891351059079170227050781250000000000000000000000000000000000000000000000000000000000000000000000000 / 113458113465036211847049379260283569846316193549014881625767841254846331988888384947772679506769044336718044004644629076809497) (101539416432993416265112212736556935063001372769122728233788141836729626203065260282372709436806435410607471401489681287188421731 / 3066435499055032752622956196223880266116653879703104908804536250130981945645632025615477824507271468559947135260665650724581) (138777878078144567552953958511352539062500000000000000000000000000000000000000000000000000000000000000000000000000 / 18493672494800902531069048819426221884949539548489425705000158124539952114188806746486946759603354226885041172757074539519948011) (105638126704740951118452584628656105385184619230969762470325389583804791380142588366912163293665622211725661552938462626019211913 / 3190214334104002506653277353704713107633179152749599052095938955414861499773815205535095180197232055698644328576345444112463) (tol_lt_abs_of_pos _ (by norm_num [tol])) (by norm_num) (by norm_num) (by norm_num) (by norm_num)
  have e74 : seriesLoop (15 / 2) 25 1926 75 (138777878078144567552953958511352539062500000000000000000000000000000000000000000000000000000000000000000000000000 / 18493672494800902531069048819426221884949539548489425705000158124539952114188806746486946759603354226885041172757074539519948011) (105638126704740951118452584628656105385184619230969762470325389583804791380142588366912163293665622211725661552938462626019211913 / 3190214334104002506653277353704713107633179152749599052095938955414861499773815205535095180197232055698644328576345444112463) = seriesLoop (15 / 2) 25 1925 76 (1387778780781445675529539585113525390625000000000000000000000000000000000000000000000000000000000000000000000000000 / 610291192328429783525278611041065322203334805100151048265005218109818419768230622634069243066910689487206358700983459804158284363) (3110463179427989640033688882996457948564066866033134049709206919004377465878506587221589002653767461093632565913295496201339273229 / 93934306961432935743462923047724383900774943066053724529014193952565556374977777841168114986441540632169671956438888687726379) :=
    seriesLoop_step (15 / 2) 25 1925 75 (138777878078144567552953958511352539062500000000000000000000000000000000000000000000000000000000000000000000000000 / 18493672494800902531069048819426221884949539548489425705000158124539952114188806746486946759603354226885041172757074539519948011) (105638126704740951118452584628656105385184619230969762470325389583804791380142588366912163293665622211725661552938462626019211913 / 3190214334104002506653277353704713107633179152749599052095938955414861499773815205535095180197232055698644328576345444112463) (1387778780781445675529539585113525390625000000000000000000000000000000000000000000000000000000000000000000000000000 / 610291192328429783525278611041065322203334805100151048265005218109818419768230622634069243066910689487206358700983459804158284363) (3110463179427989640033688882996457948564066866033134049709206919004377465878506587221589002653767461093632565913295496201339273229 / 93934306961432935743462923047724383900774943066053724529014193952565556374977777841168114986441540632169671956438888687726379) (tol_lt_abs_of_pos _ (by norm_num [tol])) (by norm_num) (by norm_num) (by norm_num) (by norm_num)
  have e75 : seriesLoop (15 / 2) 25 1925 76 (1387778780781445675529539585113525390625000000000000000000000000000000000000000000000000000000000000000000000000000 / 610291192328429783525278611041065322203334805100151048265005218109818419768230622634069243066910689487206358700983459804158284363) (3110463179427989640033688882996457948564066866033134049709206919004377465878506587221589002653767461093632565913295496201339273229 / 93934306961432935743462923047724383900774943066053724529014193952565556374977777841168114986441540632169671956438888687726379) = seriesLoop (15 / 2) 25 1924 77 (69388939039072283776476979255676269531250000000000000000000000000000000000000000000000000000000000000000000000000000 / 101918629118847773848721528043857908807956912451725225060255871424339676101294513979889563592174085144363461903064237787294433488621) (1017440289181847853939192446005832427347163390061730684453328247788010414863043041491961666050749183454666940121603768490490476368463 / 30726146855245032815411977100952037626758188860936154675989108056780125445069193240847019473070269865650727133875260110730911513) :=
    seriesLoop_step (15 / 2) 25 1924 76 (1387778780781445675529539585113525390625000000000000000000000000000000000000000000000000000000000000000000000000000 / 610291192328429783525278611041065322203334805100151048265005218109818419768230622634069243066910689487206358700983459804158284363) (3110463179427989640033688882996457948564066866033134049709206919004377465878506587221589002653767461093632565913295496201339273229 / 93934306961432935743462923047724383900774943066053724529014193952565556374977777841168114986441540632169671956438888687726379) (69388939039072283776476979255676269531250000000000000000000000000000000000000000000000000000000000000000000000000000 / 101918629118847773848721528043857908807956912451725225060255871424339676101294513979889563592174085144363461903064237787294433488621) (1017440289181847853939192446005832427347163390061730684453328247788010414863043041491961666050749183454666940121603768490490476368463 / 30726146855245032815411977100952037626758188860936154675989108056780125445069193240847019473070269865650727133875260110730911513) (tol_lt_abs_of_pos _ (by norm_num [tol])) (by norm_num) (by norm_num) (by norm_num) (by norm_num)
  have efin : seriesLoop (15 / 2) 25 1924 77 (69388939039072283776476979255676269531250000000000000000000000000000000000000000000000000000000000000000000000000000 / 101918629118847773848721528043857908807956912451725225060255871424339676101294513979889563592174085144363461903064237787294433488621) (1017440289181847853939192446005832427347163390061730684453328247788010414863043041491961666050749183454666940121603768490490476368463 / 30726146855245032815411977100952037626758188860936154675989108056780125445069193240847019473070269865650727133875260110730911513) = some (77, 69388939039072283776476979255676269531250000000000000000000000000000000000000000000000000000000000000000000000000000 / 101918629118847773848721528043857908807956912451725225060255871424339676101294513979889563592174085144363461903064237787294433488621, 1017440289181847853939192446005832427347163390061730684453328247788010414863043041491961666050749183454666940121603768490490476368463 / 30726146855245032815411977100952037626758188860936154675989108056780125445069193240847019473070269865650727133875260110730911513) :=
    seriesLoop_stop_tol (15 / 2) 25 1924 77 (69388939039072283776476979255676269531250000000000000000000000000000000000000000000000000000000000000000000000000000 / 101918629118847773848721528043857908807956912451725225060255871424339676101294513979889563592174085144363461903064237787294433488621) (1017440289181847853939192446005832427347163390061730684453328247788010414863043041491961666050749183454666940121603768490490476368463 / 30726146855245032815411977100952037626758188860936154675989108056780125445069193240847019473070269865650727133875260110730911513) (abs_le_tol_of_pos _ (by norm_num) (by norm_num [tol]))
  exact e0.trans (e1.trans (e2.trans (e3.trans (e4.trans (e5.trans (e6.trans (e7.trans (e8.trans (e9.trans (e10.trans (e11.trans (e12.trans (e13.trans (e14.trans (e15.trans (e16.trans (e17.trans (e18.trans (e19.trans (e20.trans (e21.trans (e22.trans (e23.trans (e24.trans (e25.trans (e26.trans (e27.trans (e28.trans (e29.trans (e30.trans (e31.trans (e32.trans (e33.trans (e34.trans (e35.trans (e36.trans (e37.trans (e38.trans (e39.trans (e40.trans (e41.trans (e42.trans (e43.trans (e44.trans (e45.trans (e46.trans (e47.trans (e48.trans (e49.trans (e50.trans (e51.trans (e52.trans (e53.trans (e54.trans (e55.trans (e56.trans (e57.trans (e58.trans (e59.trans (e60.trans (e61.trans (e62.trans (e63.trans (e64.trans (e65.trans (e66.trans (e67.trans (e68.trans (e69.trans (e70.trans (e71.trans (e72.trans (e73.trans (e74.trans (e75.trans (efin))))))))))))))))))))))))))))))))))))))))))))))))))))))))))))))))))))))))))))

/-- Rational bounds on `√π` from Mathlib's 20-digit bounds on `π`. -/
theorem sqrt_pi_bounds :
    (1.7724538509055160272 : ℝ) ≤ Real.sqrt Real.pi ∧
      Real.sqrt Real.pi ≤ 1.7724538509055160274 := by
  constructor
  · rw [Real.le_sqrt (by norm_num) Real.pi_pos.le]
    calc ((1.7724538509055160272 : ℝ)) ^ 2 ≤ 3.14159265358979323846 := by norm_num
      _ ≤ Real.pi := Real.pi_gt_d20.le
  · rw [Real.sqrt_le_left (by norm_num)]
    calc Real.pi ≤ 3.14159265358979323847 := Real.pi_lt_d20.le
      _ ≤ ((1.7724538509055160274 : ℝ)) ^ 2 := by norm_num

/-- Rational bounds on `e^25` from Mathlib's 10-digit bounds on `e`. -/
theorem exp_25_bounds :
    (2.7182818283 : ℝ) ^ 25 ≤ Real.exp 25 ∧ Real.exp 25 ≤ (2.7182818286 : ℝ) ^ 25 := by
  have h : Real.exp 25 = Real.exp 1 ^ 25 := by
    rw [← Real.exp_nat_mul]
    norm_num
  constructor
  · rw [h]
    exact pow_le_pow_left (by norm_num) Real.exp_one_gt_d9.le 25
  · rw [h]
    exact pow_le_pow_left (Real.exp_pos 1).le Real.exp_one_lt_d9.le 25

/-- Value `Γ(17/2) = (15/2)(13/2)⋯(1/2)·√π = (2027025/256)·√π`, by the Gamma
recurrence down to `Γ(1/2) = √π`. -/
theorem Gamma_17_half :
    Real.Gamma ((15 : ℝ) / 2 + 1) = (2027025 / 256) * Real.sqrt Real.pi := by
  have g0 : Real.Gamma ((1 : ℝ) / 2) = Real.sqrt Real.pi := Real.Gamma_one_half_eq
  have g1 : Real.Gamma ((3 : ℝ) / 2) = (1 / 2) * Real.Gamma ((1 : ℝ) / 2) := by
    have h := Real.Gamma_add_one (show ((1 : ℝ) / 2) ≠ 0 by norm_num)
    rwa [show ((1 : ℝ) / 2 + 1) = 3 / 2 by norm_num] at h
  have g2 : Real.Gamma ((5 : ℝ) / 2) = (3 / 2) * Real.Gamma ((3 : ℝ) / 2) := by
    have h := Real.Gamma_add_one (show ((3 : ℝ) / 2) ≠ 0 by norm_num)
    rwa [show ((3 : ℝ) / 2 + 1) = 5 / 2 by norm_num] at h
  have g3 : Real.Gamma ((7 : ℝ) / 2) = (5 / 2) * Real.Gamma ((5 : ℝ) / 2) := by
    have h := Real.Gamma_add_one (show ((5 : ℝ) / 2) ≠ 0 by norm_num)
    rwa [show ((5 : ℝ) / 2 + 1) = 7 / 2 by norm_num] at h
  have g4 : Real.Gamma ((9 : ℝ) / 2) = (7 / 2) * Real.Gamma ((7 : ℝ) / 2) := by
    have h := Real.Gamma_add_one (show ((7 : ℝ) / 2) ≠ 0 by norm_num)
    rwa [show ((7 : ℝ) / 2 + 1) = 9 / 2 by norm_num] at h
  have g5 : Real.Gamma ((11 : ℝ) / 2) = (9 / 2) * Real.Gamma ((9 : ℝ) / 2) := by
    have h := Real.Gamma_add_one (show ((9 : ℝ) / 2) ≠ 0 by norm_num)
    rwa [show ((9 : ℝ) / 2 + 1) = 11 / 2 by norm_num] at h
  have g6 : Real.Gamma ((13 : ℝ) / 2) = (11 / 2) * Real.Gamma ((11 : ℝ) / 2) := by
    have h := Real.Gamma_add_one (show ((11 : ℝ) / 2) ≠ 0 by norm_num)
    rwa [show ((11 : ℝ) / 2 + 1) = 13 / 2 by norm_num] at h
  have g7 : Real.Gamma ((15 : ℝ) / 2) = (13 / 2) * Real.Gamma ((13 : ℝ) / 2) := by
    have h := Real.Gamma_add_one (show ((13 : ℝ) / 2) ≠ 0 by norm_num)
    rwa [show ((13 : ℝ) / 2 + 1) = 15 / 2 by norm_num] at h
  have g8 : Real.Gamma ((15 : ℝ) / 2 + 1) = (15 / 2) * Real.Gamma ((15 : ℝ) / 2) :=
    Real.Gamma_add_one (show ((15 : ℝ) / 2) ≠ 0 by norm_num)
  rw [g8, g7, g6, g5, g4, g3, g2, g1, g0]
  ring

/-- Identity `exp((15/2)·ln 25) = 25^(15/2) = 5^15`. -/
theorem exp_log_25_pow : Real.exp ((15 : ℝ) / 2 * Real.log 25) = (5 : ℝ) ^ (15 : ℕ) := by
  rw [mul_comm, ← Real.rpow_def_of_pos (by norm_num : (0 : ℝ) < 25)]
  rw [show (25 : ℝ) = (5 : ℝ) ^ (2 : ℕ) by norm_num, ← Real.rpow_natCast (5 : ℝ) 2,
    ← Real.rpow_mul (by norm_num : (0 : ℝ) ≤ 5)]
  rw [show ((2 : ℕ) : ℝ) * ((15 : ℝ) / 2) = ((15 : ℕ) : ℝ) by norm_num]
  exact Real.rpow_natCast 5 15

/-- Exact value and two-sided numeric bounds for the reference input
`x = 50`, `df = 15`: the returned probability lies in
`[1.19e-5, 1.22e-5]` (the true value is `≈ 1.2041e-5`). -/
theorem chi2_at_50_15 :
    ∃ r : ℝ, chi2_cdf_upper_tail 50 15 = some r ∧
      (119 / 10 ^ 7 : ℝ) ≤ r ∧ r ≤ (122 / 10 ^ 7 : ℝ) := by
  obtain ⟨N, -, -, hloop, hret⟩ := chi2_spec 50 15 (by norm_num) (by norm_num)
  have h2550 : ((50 : ℚ) / 2) = 25 := by norm_num
  rw [h2550] at hloop hret
  have hcomb := hloop.symm.trans seriesLoop_eval_50_15
  have hS : msum (15 / 2) 25 N = (1017440289181847853939192446005832427347163390061730684453328247788010414863043041491961666050749183454666940121603768490490476368463 / 30726146855245032815411977100952037626758188860936154675989108056780125445069193240847019473070269865650727133875260110730911513 : ℚ) := by
    have h1 := Option.some.inj hcomb
    have h2 := congrArg (fun p : ℕ × ℚ × ℚ => p.2.2) h1
    simpa using h2
  rw [hS] at hret
  have hGpos : (0 : ℝ) < Real.Gamma ((15 : ℝ) / 2 + 1) :=
    Real.Gamma_pos_of_pos (by norm_num)
  have hE : Real.exp (((15 : ℚ) : ℝ) / 2 * Real.log (((50 : ℚ) : ℝ) / 2) - ((50 : ℚ) : ℝ) / 2
      - Real.log (Real.Gamma (((15 : ℚ) : ℝ) / 2 + 1)))
      = (5 : ℝ) ^ (15 : ℕ) * (Real.exp 25)⁻¹
        * ((2027025 / 256) * Real.sqrt Real.pi)⁻¹ := by
    have hc15 : ((15 : ℚ) : ℝ) = 15 := by norm_num
    have hc50 : ((50 : ℚ) : ℝ) = 50 := by norm_num
    rw [hc15, hc50, show ((50 : ℝ) / 2) = 25 by norm_num]
    rw [sub_eq_add_neg, sub_eq_add_neg, Real.exp_add, Real.exp_add, Real.exp_neg, Real.exp_neg,
      Real.exp_log hGpos, exp_log_25_pow, Gamma_17_half]
  rw [hE] at hret
  have hScast : (((1017440289181847853939192446005832427347163390061730684453328247788010414863043041491961666050749183454666940121603768490490476368463 / 30726146855245032815411977100952037626758188860936154675989108056780125445069193240847019473070269865650727133875260110730911513 : ℚ) : ℚ) : ℝ)
      = (1017440289181847853939192446005832427347163390061730684453328247788010414863043041491961666050749183454666940121603768490490476368463 : ℝ) / 30726146855245032815411977100952037626758188860936154675989108056780125445069193240847019473070269865650727133875260110730911513 := by
    push_cast
    ring
  rw [hScast] at hret
  refine ⟨_, hret, ?_, ?_⟩
  · have hb : (Real.exp 25)⁻¹ ≤ ((2.7182818283 : ℝ) ^ 25)⁻¹ := by
      apply inv_le_inv_of_le (by positivity) exp_25_bounds.1
    have hc : (((2027025 : ℝ) / 256) * Real.sqrt Real.pi)⁻¹
        ≤ (((2027025 : ℝ) / 256) * 1.7724538509055160272)⁻¹ := by
      apply inv_le_inv_of_le (by positivity)
      exact mul_le_mul_of_nonneg_left sqrt_pi_bounds.1 (by norm_num)
    have hchain : (5 : ℝ) ^ (15 : ℕ) * (Real.exp 25)⁻¹
          * ((2027025 / 256) * Real.sqrt Real.pi)⁻¹
          * ((1017440289181847853939192446005832427347163390061730684453328247788010414863043041491961666050749183454666940121603768490490476368463 : ℝ) / 30726146855245032815411977100952037626758188860936154675989108056780125445069193240847019473070269865650727133875260110730911513)
        ≤ (5 : ℝ) ^ (15 : ℕ) * ((2.7182818283 : ℝ) ^ 25)⁻¹
          * (((2027025 : ℝ) / 256) * 1.7724538509055160272)⁻¹
          * ((1017440289181847853939192446005832427347163390061730684453328247788010414863043041491961666050749183454666940121603768490490476368463 : ℝ) / 30726146855245032815411977100952037626758188860936154675989108056780125445069193240847019473070269865650727133875260110730911513) := by
      gcongr
    have hfinal : (5 : ℝ) ^ (15 : ℕ) * ((2.7182818283 : ℝ) ^ 25)⁻¹
          * (((2027025 : ℝ) / 256) * 1.7724538509055160272)⁻¹
          * ((1017440289181847853939192446005832427347163390061730684453328247788010414863043041491961666050749183454666940121603768490490476368463 : ℝ) / 30726146855245032815411977100952037626758188860936154675989108056780125445069193240847019473070269865650727133875260110730911513)
        ≤ 1 - 119 / 10 ^ 7 := by
      norm_num
    linarith
  · have hb : ((2.7182818286 : ℝ) ^ 25)⁻¹ ≤ (Real.exp 25)⁻¹ := by
      apply inv_le_inv_of_le (by positivity) exp_25_bounds.2
    have hc : (((2027025 : ℝ) / 256) * 1.7724538509055160274)⁻¹
        ≤ (((2027025 : ℝ) / 256) * Real.sqrt Real.pi)⁻¹ := by
      apply inv_le_inv_of_le (by positivity)
      exact mul_le_mul_of_nonneg_left sqrt_pi_bounds.2 (by norm_num)
    have hchain : (5 : ℝ) ^ (15 : ℕ) * ((2.7182818286 : ℝ) ^ 25)⁻¹
          * (((2027025 : ℝ) / 256) * 1.7724538509055160274)⁻¹
          * ((1017440289181847853939192446005832427347163390061730684453328247788010414863043041491961666050749183454666940121603768490490476368463 : ℝ) / 30726146855245032815411977100952037626758188860936154675989108056780125445069193240847019473070269865650727133875260110730911513)
        ≤ (5 : ℝ) ^ (15 : ℕ) * (Real.exp 25)⁻¹
          * ((2027025 / 256) * Real.sqrt Real.pi)⁻¹
          * ((1017440289181847853939192446005832427347163390061730684453328247788010414863043041491961666050749183454666940121603768490490476368463 : ℝ) / 30726146855245032815411977100952037626758188860936154675989108056780125445069193240847019473070269865650727133875260110730911513) := by
      gcongr
    have hfinal : 1 - 122 / 10 ^ 7
        ≤ (5 : ℝ) ^ (15 : ℕ) * ((2.7182818286 : ℝ) ^ 25)⁻¹
          * (((2027025 : ℝ) / 256) * 1.7724538509055160274)⁻¹
          * ((1017440289181847853939192446005832427347163390061730684453328247788010414863043041491961666050749183454666940121603768490490476368463 : ℝ) / 30726146855245032815411977100952037626758188860936154675989108056780125445069193240847019473070269865650727133875260110730911513) := by
      norm_num
    linarith


/-- Counterexample to C7: the value at `x = 50`, `df = 15` is not in
`[9.99e-6, 1.01e-5]` — it exceeds `1.01e-5` (in fact it is `≈ 1.2041e-5`,
i.e. P(χ² > 50) at df = 15 is about 1 in 83000, not 1 in 100000). -/
theorem chi2_50_15_not_within_1e5 :
    ∃ r : ℝ, chi2_cdf_upper_tail 50 15 = some r ∧
      ¬((999 / 10 ^ 8 : ℝ) ≤ r ∧ r ≤ (101 / 10 ^ 7 : ℝ)) := by
  obtain ⟨r, hr, h1, h2⟩ := chi2_at_50_15
  refine ⟨r, hr, ?_⟩
  rintro ⟨-, hub⟩
  have hcontra : (119 / 10 ^ 7 : ℝ) ≤ 101 / 10 ^ 7 := le_trans h1 hub
  norm_num at hcontra

/-- C7 (amended): for `x = 50.00` and `df = 15` the returned value lies
between `1.19e-5` and `1.22e-5`, i.e. within 1.3% relative error of
`1.204e-5`. -/
theorem chi2_50_15_in_window :
    ∃ r : ℝ, chi2_cdf_upper_tail 50 15 = some r ∧
      (119 / 10 ^ 7 : ℝ) ≤ r ∧ r ≤ (122 / 10 ^ 7 : ℝ) :=
  chi2_at_50_15


